import Mathlib

/-!
# LoRaCloud geolocation integration — verification development

Shallow embedding of `internal/integration/loracloud/loracloud.go`
(package `loracloud`) and proofs about it.

Modelling conventions:
* Go byte slices are `List Nat` (each element < 256 where it matters).
* The protobuf `gw.UplinkRXInfo` message is modelled with exactly the
  fields this module reads: `uplinkId` (`GetUplinkId`) and the presence
  and value of the plain fine timestamp (`GetFineTimestamp`).  All other
  fields only flow opaquely into resolver requests, which the embedding
  records wholesale as effects.
* Go `int` is `Int` (so that a negative `GeolocationMinBufferSize`
  compares exactly as in Go).
* `float64` coordinates flow through this module opaquely; they are
  modelled as `Int`.  JSON numbers (which `encoding/json` decodes to
  `float64`) are modelled by their integer values, on which Go's
  `int(x)` conversion is the identity.
* The effectful parts (Redis-backed buffer, HTTP resolver client,
  integration sink) are repository code outside this module's file; the
  environment `Env` fixes each collaborator's outcome for the one uplink
  under consideration, and every function returns its value together
  with the list of I/O `Effect`s it performed, in order.
-/

namespace LoraCloud

/-- One gateway reception of an uplink (`gw.UplinkRXInfo`), restricted to
the fields read by the loracloud module: the opaque uplink id and the
optional plain fine timestamp (nanoseconds). -/
structure UplinkRXInfo where
  uplinkId : List Nat
  fineTimestamp : Option Nat
  deriving DecidableEq, Repr

/-- A frame: the ordered receptions of one uplink (`[]*gw.UplinkRXInfo`). -/
abbrev Frame := List UplinkRXInfo

/-- `common.Location`: coordinates modelled as `Int` (opaque to this
module); `source` is the ordinal of the `common.LocationSource` enum. -/
structure Location where
  latitude : Int
  longitude : Int
  altitude : Int
  accuracy : Int
  source : Nat
  deriving DecidableEq, Repr

/-- The Go zero value of `common.Location` (`var loc common.Location`). -/
def zeroLocation : Location := ⟨0, 0, 0, 0, 0⟩

/-- The `Config` struct of the integration. -/
structure Config where
  geolocation : Bool
  geolocationToken : String
  geolocationBufferTTL : Int
  geolocationMinBufferSize : Int
  geolocationTDOA : Bool
  geolocationRSSI : Bool
  geolocationGNSS : Bool
  geolocationGNSSPayloadField : String
  geolocationGNSSUseRxTime : Bool
  geolocationWifi : Bool
  geolocationWifiPayloadField : String
  deriving DecidableEq, Repr

/-- A Go `interface{}` value as produced by `json.Unmarshal`:
`nil`, `bool`, `float64` (integer-valued numbers modelled as `Int`),
`string`, `[]interface{}` or `map[string]interface{}` (the map is kept
as the insertion sequence; lookup takes the last binding, matching the
overwrite semantics of repeated JSON keys). -/
inductive GoValue where
  | null : GoValue
  | boolean : Bool → GoValue
  | num : Int → GoValue
  | str : String → GoValue
  | arr : List GoValue → GoValue
  | obj : List (String × GoValue) → GoValue

/-- Go map lookup on the insertion sequence: the last binding wins
(later duplicate JSON keys overwrite earlier ones in `json.Unmarshal`). -/
def lookupField (kvs : List (String × GoValue)) (field : String) : Option GoValue :=
  kvs.foldl (fun acc kv => if kv.1 = field then some kv.2 else acc) none

/-- The `object_json` string of an uplink, classified by what
`json.Unmarshal([]byte(jsonStr), &map[string]interface{})` does to it:
the empty string, a string the decoder rejects, or a decoded top-level
object. -/
inductive ObjectJSON where
  | empty : ObjectJSON
  | malformed : ObjectJSON
  | parsed : List (String × GoValue) → ObjectJSON

/-- `pb.UplinkEvent`, restricted to the fields this module reads. -/
structure UplinkEvent where
  applicationId : Nat
  applicationName : String
  deviceName : String
  devEui : List Nat
  fCnt : Nat
  rxInfo : Frame
  objectJson : ObjectJSON
  tags : List (String × String)

/-- `pb.LocationEvent`, the fields `HandleUplinkEvent` populates. -/
structure LocationEvent where
  applicationId : Nat
  applicationName : String
  deviceName : String
  devEui : List Nat
  tags : List (String × String)
  location : Location
  uplinkIds : List (List Nat)
  fCnt : Nat
  deriving DecidableEq, Repr

/-- `geolocation.WifiAccessPoint`: 6-byte MAC and signal strength. -/
structure WifiAccessPoint where
  macAddress : List Nat
  signalStrength : Int
  deriving DecidableEq, Repr

/-! ## Base64 (Go `encoding/base64` `StdEncoding.DecodeString`) -/

/-- Value of one character of the standard base64 alphabet. -/
def b64Index (c : Char) : Option Nat :=
  if 'A' ≤ c ∧ c ≤ 'Z' then some (c.toNat - 65)
  else if 'a' ≤ c ∧ c ≤ 'z' then some (c.toNat - 97 + 26)
  else if '0' ≤ c ∧ c ≤ '9' then some (c.toNat - 48 + 52)
  else if c = '+' then some 62
  else if c = '/' then some 63
  else none

/-- Decode base64 quanta of four symbols each, with `=` padding allowed
only to close the final quantum (two or one payload bytes); a leftover
of one to three symbols is a corrupt-input error. -/
def b64DecodeQuanta : List Char → Option (List Nat)
  | [] => some []
  | c1 :: c2 :: c3 :: c4 :: rest =>
    match b64Index c1, b64Index c2 with
    | some v1, some v2 =>
      if c3 = '=' then
        if c4 = '=' ∧ rest = [] then some [v1 * 4 + v2 / 16] else none
      else
        match b64Index c3 with
        | some v3 =>
          if c4 = '=' then
            if rest = [] then some [v1 * 4 + v2 / 16, v2 % 16 * 16 + v3 / 4] else none
          else
            match b64Index c4 with
            | some v4 =>
              match b64DecodeQuanta rest with
              | some tail =>
                some ((v1 * 4 + v2 / 16) :: (v2 % 16 * 16 + v3 / 4) :: (v3 % 4 * 64 + v4) :: tail)
              | none => none
            | none => none
        | none => none
    | _, _ => none
  | _ => none

/-- Go's `base64.StdEncoding.DecodeString`: carriage returns and
newlines are ignored, everything else must form complete quanta. -/
def base64Decode (s : String) : Option (List Nat) :=
  b64DecodeQuanta (s.toList.filter (fun c => c != '\r' && c != '\n'))

/-! ## Object extractors -/

/-- `getBytesFromJSONObject`: empty JSON and a missing field yield an
empty (nil) byte slice with no error; a non-string value or a base64
failure is an error. -/
def getBytesFromJSONObject (field : String) (j : ObjectJSON) : Except String (List Nat) :=
  match j with
  | .empty => .ok []
  | .malformed => .error "unmarshal json error"
  | .parsed kvs =>
    match lookupField kvs field with
    | none => .ok []
    | some (.str s) =>
      match base64Decode s with
      | some b => .ok b
      | none => .error "base64 decode error"
    | some _ => .error "expected string"

/-- The effect of `copy(ap.MacAddress[:], b)` on the zero-initialised
6-byte array: the first `min (length b) 6` bytes are copied, the rest of
the array stays zero. -/
def goMacCopy (b : List Nat) : List Nat :=
  b.take 6 ++ List.replicate (6 - b.length) 0

/-- One iteration of the access-point loop of
`getWifiAccessPointsFromJSONObject`: the entry must be an object, its
`macAddress` a string that base64-decodes, its `signalStrength` a
number; the decoded MAC is copied into the 6-byte array. -/
def extractWifiAP (v : GoValue) : Except String WifiAccessPoint :=
  match v with
  | .obj kvs =>
    match lookupField kvs "macAddress" with
    | some (.str s) =>
      match base64Decode s with
      | some b =>
        match lookupField kvs "signalStrength" with
        | some (.num ss) => .ok ⟨goMacCopy b, ss⟩
        | _ => .error "signalStrength must be a float64"
      | none => .error "base64 decode error"
    | _ => .error "macAddress must be a string"
  | _ => .error "expected key / value map"

/-- The access-point loop: entries are processed in list order and the
first failure aborts the whole extraction. -/
def wifiAPsFromList : List GoValue → Except String (List WifiAccessPoint)
  | [] => .ok []
  | v :: rest =>
    match extractWifiAP v with
    | .error e => .error e
    | .ok ap =>
      match wifiAPsFromList rest with
      | .error e => .error e
      | .ok aps => .ok (ap :: aps)

/-- `getWifiAccessPointsFromJSONObject`: empty JSON and a missing field
yield an empty (nil) list with no error; the field value must be a JSON
list, whose entries are processed by the access-point loop. -/
def getWifiAccessPointsFromJSONObject (field : String) (j : ObjectJSON) :
    Except String (List WifiAccessPoint) :=
  match j with
  | .empty => .ok []
  | .malformed => .error "unmarshal json error"
  | .parsed kvs =>
    match lookupField kvs field with
    | none => .ok []
    | some (.arr aps) => wifiAPsFromList aps
    | some _ => .error "field content must be a list of objects"

/-! ## Effects and environment

The buffer store (`GetGeolocBuffer` / `SaveGeolocBuffer`, in the
package's Redis-backed buffer file) and the resolver client (package
`client/geolocation`) are repository code outside this module's file.
Modelled from the spec: the buffer read returns the stored frames or an
empty sequence when absent/expired (§4.2), the client returns a
`Location`, the sentinel `ErrNoLocation`, or a transport/serialization/
non-2xx error, with the Go zero `Location` value alongside an error
(§4.6).  `Env` fixes each collaborator's outcome for the one uplink
under consideration, and each embedded function reports the I/O it
performed as an ordered list of `Effect`s. -/

/-- The outcome of one resolver-client call. -/
inductive ResolverResult where
  | ok : Location → ResolverResult
  | noLocation : ResolverResult
  | err : String → ResolverResult
  deriving DecidableEq, Repr

/-- One I/O action of the module, with the data it sent. -/
inductive Effect where
  | bufferGet : Effect
  | bufferSave : List Frame → Effect
  | callGNSS : Frame → Bool → List Nat → Effect
  | callWifi : Frame → List WifiAccessPoint → Effect
  | callTDOASingle : Frame → Effect
  | callTDOAMulti : List Frame → Effect
  | callRSSISingle : Frame → Effect
  | callRSSIMulti : List Frame → Effect
  | emitLocationEvent : LocationEvent → Effect
  deriving DecidableEq, Repr

/-- Outcomes of the collaborators for the uplink under consideration.
TTL handling lives inside the spec-modelled store, so `getResult`
already reflects expiry.  `sinkOk` is the outcome of the sink's
`HandleLocationEvent`; the source only logs a sink error, so no embedded
function reads it — which is exactly the point of claims about it. -/
structure Env where
  getResult : Except String (List Frame)
  saveOk : Bool
  gnssResp : ResolverResult
  wifiResp : ResolverResult
  tdoaSingleResp : ResolverResult
  tdoaMultiResp : ResolverResult
  rssiSingleResp : ResolverResult
  rssiMultiResp : ResolverResult
  sinkOk : Bool

/-! ## Metadata filter -/

/-- `filterOnFineTimestamp`: per frame, keep the receptions that carry a
plain fine timestamp (appending in order), then keep the frame when at
least `minPerFrame` receptions survived. -/
def filterOnFineTimestamp (geolocBuffer : List Frame) (minPerFrame : Int) : List Frame :=
  geolocBuffer.foldl
    (fun out frame =>
      let f := frame.foldl
        (fun f r => if r.fineTimestamp.isSome then f ++ [r] else f) []
      if minPerFrame ≤ (f.length : Int) then out ++ [f] else out)
    []

/-! ## Buffer update -/

/-- The append step of `updateGeolocBuffer`: the current frame joins the
read buffer exactly when it was received by at least 3 gateways. -/
def updatedBuffer (buffer : List Frame) (pl : UplinkEvent) : List Frame :=
  if 3 ≤ pl.rxInfo.length then buffer ++ [pl.rxInfo] else buffer

/-- `updateGeolocBuffer`: read the buffer, append the current frame when
it has at least 3 receptions, save (refreshing the TTL) exactly when the
result is non-empty.  A failing save is still an attempted write. -/
def updateGeolocBuffer (env : Env) (pl : UplinkEvent) :
    Except String (List Frame) × List Effect :=
  match env.getResult with
  | .error e => (.error ("get geoloc buffer error: " ++ e), [.bufferGet])
  | .ok buffer =>
    let geolocBuffer := updatedBuffer buffer pl
    if geolocBuffer.length ≠ 0 then
      if env.saveOk then (.ok geolocBuffer, [.bufferGet, .bufferSave geolocBuffer])
      else (.error "save geoloc buffer error", [.bufferGet, .bufferSave geolocBuffer])
    else (.ok geolocBuffer, [.bufferGet])

/-! ## Resolver helpers -/

/-- Shared response interpretation of `tdoaGeolocation`,
`rssiGeolocation` and `gnssLR1110Geolocation`: the sentinel
`ErrNoLocation` becomes a nil location with nil error, any other client
error is wrapped and returned. -/
def interpretResolver : ResolverResult → Except String (Option Location)
  | .ok loc => .ok (some loc)
  | .noLocation => .ok none
  | .err e => .error ("geolocation error: " ++ e)

/-- `tdoaGeolocation`: single-frame endpoint when the buffer holds
exactly one frame, multi-frame otherwise. -/
def tdoaGeolocation (env : Env) (geolocBuffer : List Frame) :
    Except String (Option Location) × List Effect :=
  if geolocBuffer.length = 1 then
    (interpretResolver env.tdoaSingleResp, [.callTDOASingle geolocBuffer.headI])
  else
    (interpretResolver env.tdoaMultiResp, [.callTDOAMulti geolocBuffer])

/-- `rssiGeolocation`: single-frame endpoint when the buffer holds
exactly one frame, multi-frame otherwise. -/
def rssiGeolocation (env : Env) (geolocBuffer : List Frame) :
    Except String (Option Location) × List Effect :=
  if geolocBuffer.length = 1 then
    (interpretResolver env.rssiSingleResp, [.callRSSISingle geolocBuffer.headI])
  else
    (interpretResolver env.rssiMultiResp, [.callRSSIMulti geolocBuffer])

/-- `gnssLR1110Geolocation`. -/
def gnssLR1110Geolocation (cfg : Config) (env : Env) (rxInfo : Frame) (pl : List Nat) :
    Except String (Option Location) × List Effect :=
  (interpretResolver env.gnssResp, [.callGNSS rxInfo cfg.geolocationGNSSUseRxTime pl])

/-- `wifiTDOAGeolocation`.  The source checks `err == ErrNoLocation`
inside `if err != nil` but has no branch returning any other error: for
a non-sentinel error control falls through to `return &loc, nil`, so the
error is swallowed and the zero-valued `common.Location` is returned as
a found location. -/
def wifiTDOAGeolocation (env : Env) (rxInfo : Frame) (aps : List WifiAccessPoint) :
    Except String (Option Location) × List Effect :=
  (match env.wifiResp with
    | .ok loc => .ok (some loc)
    | .noLocation => .ok none
    | .err _ => .ok (some zeroLocation),
   [.callWifi rxInfo aps])

/-! ## Orchestrator (`geolocation` method)

The Go method is one sequence of `if` blocks; each block either
`return`s or falls through to the next.  The embedding splits the
blocks into one definition per strategy, each falling through to the
next lower-priority one. -/

/-- Flattened, in-order `GetUplinkId` of every reception of every frame
(the nested `for` loops building `uplinkIDs`). -/
def uplinkIDsOf (frames : List Frame) : List (List Nat) :=
  frames.flatMap (fun f => f.map (·.uplinkId))

/-- Result type of the `geolocation` method: uplink ids, optional
location, or an error. -/
abbrev GeoResult := Except String (List (List Nat) × Option Location) × List Effect

/-- RSSI block of `geolocation`: gated on the unfiltered buffer being
non-empty and at least `GeolocationMinBufferSize`. -/
def geolocationRSSIStep (cfg : Config) (env : Env) (geolocBuffer : List Frame) : GeoResult :=
  if cfg.geolocationRSSI then
    if geolocBuffer.length = 0 ∨ (geolocBuffer.length : Int) < cfg.geolocationMinBufferSize then
      (.ok ([], none), [])
    else
      let uplinkIDs := uplinkIDsOf geolocBuffer
      let r := rssiGeolocation env geolocBuffer
      (r.1.map (fun loc => (uplinkIDs, loc)), r.2)
  else (.ok ([], none), [])

/-- TDOA block of `geolocation`: gated on the fine-timestamp-filtered
buffer (3 per frame) being non-empty and at least
`GeolocationMinBufferSize`; otherwise falls through to RSSI. -/
def geolocationTDOAStep (cfg : Config) (env : Env) (geolocBuffer : List Frame) : GeoResult :=
  if cfg.geolocationTDOA then
    let tdoaFiltered := filterOnFineTimestamp geolocBuffer 3
    if tdoaFiltered.length = 0 ∨ (tdoaFiltered.length : Int) < cfg.geolocationMinBufferSize then
      geolocationRSSIStep cfg env geolocBuffer
    else
      let uplinkIDs := uplinkIDsOf tdoaFiltered
      let r := tdoaGeolocation env tdoaFiltered
      (r.1.map (fun loc => (uplinkIDs, loc)), r.2)
  else geolocationRSSIStep cfg env geolocBuffer

/-- WiFi block of `geolocation`: an extractor failure is logged and
ends the whole method with nil ids, nil location and nil error; an
empty extraction falls through to TDOA. -/
def geolocationWifiStep (cfg : Config) (env : Env) (geolocBuffer : List Frame)
    (pl : UplinkEvent) : GeoResult :=
  if cfg.geolocationWifi then
    match getWifiAccessPointsFromJSONObject cfg.geolocationWifiPayloadField pl.objectJson with
    | .error _ => (.ok ([], none), [])
    | .ok wifiAPs =>
      if wifiAPs.length = 0 then geolocationTDOAStep cfg env geolocBuffer
      else
        let r := wifiTDOAGeolocation env pl.rxInfo wifiAPs
        (r.1.map (fun loc => ([], loc)), r.2)
  else geolocationTDOAStep cfg env geolocBuffer

/-- The `geolocation` method: GNSS block first (an extractor failure
ends the whole method with nil ids, nil location and nil error; an
empty extraction falls through), then WiFi, TDOA, RSSI. -/
def geolocation (cfg : Config) (env : Env) (geolocBuffer : List Frame)
    (pl : UplinkEvent) : GeoResult :=
  if cfg.geolocationGNSS then
    match getBytesFromJSONObject cfg.geolocationGNSSPayloadField pl.objectJson with
    | .error _ => (.ok ([], none), [])
    | .ok gnssPL =>
      if gnssPL.length = 0 then geolocationWifiStep cfg env geolocBuffer pl
      else
        let r := gnssLR1110Geolocation cfg env pl.rxInfo gnssPL
        (r.1.map (fun loc => ([], loc)), r.2)
  else geolocationWifiStep cfg env geolocBuffer pl

/-! ## Facade -/

/-- The `pb.LocationEvent` literal built inside `HandleUplinkEvent`:
identity fields copied from the uplink, `FCnt` populated only when
`uplinkIDs` is empty (the `var fCnt uint32` with its conditional
assignment). -/
def mkLocationEvent (pl : UplinkEvent) (uplinkIDs : List (List Nat))
    (loc : Location) : LocationEvent :=
  { applicationId := pl.applicationId
    applicationName := pl.applicationName
    deviceName := pl.deviceName
    devEui := pl.devEui
    tags := pl.tags
    location := loc
    uplinkIds := uplinkIDs
    fCnt := if uplinkIDs.length = 0 then pl.fCnt else 0 }

/-- `HandleUplinkEvent`: when the master flag is off, return success
with no I/O at all.  Otherwise update the buffer, run the orchestrator
(each failure wrapped with its context), and if a location was produced
emit a `LocationEvent` to the sink.  A sink failure is only logged
(`env.sinkOk` is not consulted), so it never affects the returned
value. -/
def handleUplinkEvent (cfg : Config) (env : Env) (pl : UplinkEvent) :
    Except String Unit × List Effect :=
  if cfg.geolocation then
    match updateGeolocBuffer env pl with
    | (.error e, eff1) => (.error ("update geolocation buffer error: " ++ e), eff1)
    | (.ok geolocBuffer, eff1) =>
      match geolocation cfg env geolocBuffer pl with
      | (.error e, eff2) => (.error ("geolocation error: " ++ e), eff1 ++ eff2)
      | (.ok (_, none), eff2) => (.ok (), eff1 ++ eff2)
      | (.ok (uplinkIDs, some loc), eff2) =>
        (.ok (), eff1 ++ eff2 ++ [.emitLocationEvent (mkLocationEvent pl uplinkIDs loc)])
  else (.ok (), [])

/-! ## Spec-side definitions

These follow the words of the spec (§4.5 "Strategy priority", §8
properties 2–3), to be compared with the embedded source.  They are not
translations of the source. -/

/-- Whether an `Except` is a success. -/
def exceptOk {ε α : Type} : Except ε α → Bool
  | .ok _ => true
  | .error _ => false

/-- Spec §4.5: GNSS qualifies when enabled and the GNSS blob is
extracted non-empty. -/
def gnssQualifies (cfg : Config) (pl : UplinkEvent) : Bool :=
  cfg.geolocationGNSS &&
    (match getBytesFromJSONObject cfg.geolocationGNSSPayloadField pl.objectJson with
      | .ok b => !b.isEmpty
      | .error _ => false)

/-- Spec §4.5: WiFi qualifies when enabled and the AP list is extracted
non-empty. -/
def wifiQualifies (cfg : Config) (pl : UplinkEvent) : Bool :=
  cfg.geolocationWifi &&
    (match getWifiAccessPointsFromJSONObject cfg.geolocationWifiPayloadField pl.objectJson with
      | .ok aps => !aps.isEmpty
      | .error _ => false)

/-- Spec §4.5: TDOA qualifies when enabled and the fine-timestamp
filtered buffer has size ≥ max 1 `min_buffer_size`. -/
def tdoaQualifies (cfg : Config) (geolocBuffer : List Frame) : Bool :=
  cfg.geolocationTDOA &&
    decide (max 1 cfg.geolocationMinBufferSize ≤
      ((filterOnFineTimestamp geolocBuffer 3).length : Int))

/-- Spec §4.5: RSSI qualifies when enabled and the unfiltered buffer
has size ≥ max 1 `min_buffer_size`. -/
def rssiQualifies (cfg : Config) (geolocBuffer : List Frame) : Bool :=
  cfg.geolocationRSSI &&
    decide (max 1 cfg.geolocationMinBufferSize ≤ (geolocBuffer.length : Int))

/-- GNSS is enabled and its extractor fails on this uplink. -/
def gnssExtractFails (cfg : Config) (pl : UplinkEvent) : Bool :=
  cfg.geolocationGNSS &&
    !exceptOk (getBytesFromJSONObject cfg.geolocationGNSSPayloadField pl.objectJson)

/-- WiFi is enabled and its extractor fails on this uplink. -/
def wifiExtractFails (cfg : Config) (pl : UplinkEvent) : Bool :=
  cfg.geolocationWifi &&
    !exceptOk (getWifiAccessPointsFromJSONObject cfg.geolocationWifiPayloadField pl.objectJson)

/-- No enabled extractor fails on this uplink. -/
def extractorsOk (cfg : Config) (pl : UplinkEvent) : Bool :=
  !gnssExtractFails cfg pl && !wifiExtractFails cfg pl

/-- The geolocation strategies, plus "no strategy". -/
inductive Strategy where
  | gnss : Strategy
  | wifi : Strategy
  | tdoa : Strategy
  | rssi : Strategy
  | skip : Strategy
  deriving DecidableEq, Repr

/-- Spec §4.5: the first qualifying strategy in the fixed priority
order GNSS, WiFi, TDOA, RSSI. -/
def selectStrategy (cfg : Config) (geolocBuffer : List Frame) (pl : UplinkEvent) : Strategy :=
  if gnssQualifies cfg pl then .gnss
  else if wifiQualifies cfg pl then .wifi
  else if tdoaQualifies cfg geolocBuffer then .tdoa
  else if rssiQualifies cfg geolocBuffer then .rssi
  else .skip

/-- Which strategy a resolver-call effect belongs to, if any. -/
def strategyOfEffect : Effect → Option Strategy
  | .callGNSS _ _ _ => some .gnss
  | .callWifi _ _ => some .wifi
  | .callTDOASingle _ => some .tdoa
  | .callTDOAMulti _ => some .tdoa
  | .callRSSISingle _ => some .rssi
  | .callRSSIMulti _ => some .rssi
  | _ => none

/-- The strategies attempted in a trace, in order. -/
def attemptedStrategies (t : List Effect) : List Strategy :=
  t.filterMap strategyOfEffect

/-- Whether a trace contains a TDOA resolver call. -/
def hasTDOACall (t : List Effect) : Bool :=
  (attemptedStrategies t).contains .tdoa

/-- Whether a trace contains an RSSI resolver call. -/
def hasRSSICall (t : List Effect) : Bool :=
  (attemptedStrategies t).contains .rssi

/-- Whether a trace contains a GNSS resolver call. -/
def hasGNSSCall (t : List Effect) : Bool :=
  (attemptedStrategies t).contains .gnss

/-- Whether a trace contains a WiFi resolver call. -/
def hasWifiCall (t : List Effect) : Bool :=
  (attemptedStrategies t).contains .wifi

/-- The environment's response for the strategy that would be selected
(for TDOA/RSSI the single- or multi-frame endpoint, depending on the
frame count actually sent). -/
def strategyResp (env : Env) (geolocBuffer : List Frame) : Strategy → ResolverResult
  | .gnss => env.gnssResp
  | .wifi => env.wifiResp
  | .tdoa =>
    if (filterOnFineTimestamp geolocBuffer 3).length = 1 then env.tdoaSingleResp
    else env.tdoaMultiResp
  | .rssi =>
    if geolocBuffer.length = 1 then env.rssiSingleResp else env.rssiMultiResp
  | .skip => .noLocation

/-- The GNSS blob of the uplink (empty when extraction fails). -/
def gnssBlob (cfg : Config) (pl : UplinkEvent) : List Nat :=
  match getBytesFromJSONObject cfg.geolocationGNSSPayloadField pl.objectJson with
  | .ok b => b
  | .error _ => []

/-- The WiFi access-point list of the uplink (empty when extraction
fails). -/
def wifiAPList (cfg : Config) (pl : UplinkEvent) : List WifiAccessPoint :=
  match getWifiAccessPointsFromJSONObject cfg.geolocationWifiPayloadField pl.objectJson with
  | .ok aps => aps
  | .error _ => []

/-- Whether an effect is a `LocationEvent` handed to the sink. -/
def isEmit : Effect → Bool
  | .emitLocationEvent _ => true
  | _ => false

/-- The `LocationEvent`s handed to the sink in a trace, in order. -/
def emittedEvents (t : List Effect) : List LocationEvent :=
  t.filterMap fun e =>
    match e with
    | .emitLocationEvent ev => some ev
    | _ => none

/-- The resolver calls a selected strategy should produce: none for
`skip`, exactly one for anything else. -/
def strategyAttempts : Strategy → List Strategy
  | .skip => []
  | s => [s]

/-- The spec's description of `filter_on_fine_timestamp` (§4.3): per
frame retain the receptions whose fine timestamp is present, then drop
the frames whose retained count is below `min_per_frame`; order is
preserved. -/
def filterOnFineTimestampSpec (buf : List Frame) (minPerFrame : Int) : List Frame :=
  (buf.map (fun frame => frame.filter (fun r => r.fineTimestamp.isSome))).filter
    (fun f => decide (minPerFrame ≤ (f.length : Int)))

/-! ## Concrete fixtures

Mirroring the repository's test corpus: three gateways with uplink ids
`[1]`, `[2]`, `[3]` and fine timestamps 111/222/333 ns. -/

/-- A frame received by three gateways, all fine-timestamped. -/
def frameFT : Frame := [⟨[1], some 111⟩, ⟨[2], some 222⟩, ⟨[3], some 333⟩]

/-- A frame received by three gateways, none fine-timestamped. -/
def frameNoFT : Frame := [⟨[1], none⟩, ⟨[2], none⟩, ⟨[3], none⟩]

/-- A resolved location as in the test corpus. -/
def locFix : Location := ⟨1123, 2123, 3123, 10, 1⟩

/-- An uplink with three receptions and no object payload. -/
def plNoObject : UplinkEvent :=
  ⟨1, "test-app", "test-device", [1, 2, 3, 4, 5, 6, 7, 8], 10, frameFT, .empty, []⟩

/-- A decoded object holding one WiFi access point
(`macAddress = base64 "AQEBAQEB"`, six `0x01` bytes). -/
def wifiObject : ObjectJSON :=
  .parsed [("wifi_aps", .arr
    [.obj [("macAddress", .str "AQEBAQEB"), ("signalStrength", .num (-10))]])]

/-- The access point `wifiObject` decodes to. -/
def apFix : WifiAccessPoint := ⟨[1, 1, 1, 1, 1, 1], -10⟩

/-- The uplink `plNoObject` carrying `wifiObject`. -/
def plWifi : UplinkEvent :=
  ⟨1, "test-app", "test-device", [1, 2, 3, 4, 5, 6, 7, 8], 10, frameFT, wifiObject, []⟩

/-- An environment in which every collaborator succeeds and every
resolver endpoint answers "no location". -/
def envBase : Env :=
  ⟨.ok [], true, .noLocation, .noLocation, .noLocation, .noLocation,
   .noLocation, .noLocation, true⟩

/-- A configuration with everything off except the master flag. -/
def cfgBase : Config :=
  ⟨true, "", 60, 0, false, false, false, "", false, false, ""⟩

/-- A configuration with the geolocation master flag off. -/
def cfgOff : Config :=
  ⟨false, "", 60, 0, false, false, false, "", false, false, ""⟩

/-- A configuration with only the WiFi strategy enabled. -/
def cfgWifi : Config :=
  ⟨true, "", 60, 0, false, false, false, "", false, true, "wifi_aps"⟩

/-- A configuration with GNSS and RSSI enabled. -/
def cfgGnssRssi : Config :=
  ⟨true, "", 60, 0, false, true, true, "gnss_pl", false, false, ""⟩

/-- A configuration with GNSS and TDOA enabled. -/
def cfgGnssTdoa : Config :=
  ⟨true, "", 60, 0, true, false, true, "gnss_pl", false, false, ""⟩

/-- A configuration with TDOA and RSSI enabled. -/
def cfgTdoaRssi : Config :=
  ⟨true, "", 60, 0, true, true, false, "", false, false, ""⟩

/-- An uplink with only two receptions (too short to buffer). -/
def plShort : UplinkEvent :=
  ⟨1, "test-app", "test-device", [1, 2, 3, 4, 5, 6, 7, 8], 10,
   [⟨[1], some 111⟩, ⟨[2], some 222⟩], .empty, []⟩

/-- The uplink `plNoObject` with an object string `json.Unmarshal`
rejects. -/
def plMalformed : UplinkEvent :=
  ⟨1, "test-app", "test-device", [1, 2, 3, 4, 5, 6, 7, 8], 10, frameFT, .malformed, []⟩

/-- `envBase` with the WiFi endpoint failing with a transport error. -/
def envWifiErr : Env :=
  ⟨.ok [], true, .noLocation, .err "transport error", .noLocation, .noLocation,
   .noLocation, .noLocation, true⟩

/-- `envBase` with every resolver endpoint returning `locFix`. -/
def envLoc : Env :=
  ⟨.ok [], true, .ok locFix, .ok locFix, .ok locFix, .ok locFix,
   .ok locFix, .ok locFix, true⟩

/-- An environment whose buffer read fails and whose sink fails. -/
def envGetErr : Env :=
  ⟨.error "boom", true, .noLocation, .noLocation, .noLocation, .noLocation,
   .noLocation, .noLocation, false⟩

/-! ## Helper lemmas: branch characterizations -/

theorem gate_of_not_max {n : ℕ} {k : ℤ} (h : ¬ max 1 k ≤ (n : ℤ)) :
    n = 0 ∨ (n : ℤ) < k := by
  simp only [max_le_iff] at h
  omega

theorem not_gate_of_max {n : ℕ} {k : ℤ} (h : max 1 k ≤ (n : ℤ)) :
    ¬ (n = 0 ∨ (n : ℤ) < k) := by
  simp only [max_le_iff] at h
  omega

theorem geolocationRSSIStep_skip {cfg : Config} (env : Env) {B : List Frame}
    (h : rssiQualifies cfg B = false) :
    geolocationRSSIStep cfg env B = (.ok ([], none), []) := by
  unfold geolocationRSSIStep
  by_cases hr : cfg.geolocationRSSI = true
  · have hk : ¬ max 1 cfg.geolocationMinBufferSize ≤ (B.length : ℤ) := by
      rw [rssiQualifies, hr, Bool.true_and] at h
      exact of_decide_eq_false h
    rw [if_pos hr, if_pos (gate_of_not_max hk)]
  · rw [if_neg hr]

theorem geolocationRSSIStep_fire {cfg : Config} (env : Env) {B : List Frame}
    (h : rssiQualifies cfg B = true) :
    geolocationRSSIStep cfg env B =
      ((rssiGeolocation env B).1.map (fun loc => (uplinkIDsOf B, loc)),
       (rssiGeolocation env B).2) := by
  rw [rssiQualifies] at h
  simp only [Bool.and_eq_true] at h
  obtain ⟨hr, hk⟩ := h
  unfold geolocationRSSIStep
  rw [if_pos hr, if_neg (not_gate_of_max (of_decide_eq_true hk))]

theorem geolocationTDOAStep_skip {cfg : Config} (env : Env) {B : List Frame}
    (h : tdoaQualifies cfg B = false) :
    geolocationTDOAStep cfg env B = geolocationRSSIStep cfg env B := by
  unfold geolocationTDOAStep
  by_cases ht : cfg.geolocationTDOA = true
  · have hk : ¬ max 1 cfg.geolocationMinBufferSize ≤
        ((filterOnFineTimestamp B 3).length : ℤ) := by
      rw [tdoaQualifies, ht, Bool.true_and] at h
      exact of_decide_eq_false h
    rw [if_pos ht, if_pos (gate_of_not_max hk)]
  · rw [if_neg ht]

theorem geolocationTDOAStep_fire {cfg : Config} (env : Env) {B : List Frame}
    (h : tdoaQualifies cfg B = true) :
    geolocationTDOAStep cfg env B =
      ((tdoaGeolocation env (filterOnFineTimestamp B 3)).1.map
         (fun loc => (uplinkIDsOf (filterOnFineTimestamp B 3), loc)),
       (tdoaGeolocation env (filterOnFineTimestamp B 3)).2) := by
  rw [tdoaQualifies] at h
  simp only [Bool.and_eq_true] at h
  obtain ⟨ht, hk⟩ := h
  unfold geolocationTDOAStep
  rw [if_pos ht, if_neg (not_gate_of_max (of_decide_eq_true hk))]

theorem geolocationWifiStep_halt {cfg : Config} (env : Env) (B : List Frame)
    {pl : UplinkEvent} (h : wifiExtractFails cfg pl = true) :
    geolocationWifiStep cfg env B pl = (.ok ([], none), []) := by
  rw [wifiExtractFails] at h
  simp only [Bool.and_eq_true] at h
  obtain ⟨hw, hex⟩ := h
  unfold geolocationWifiStep
  cases hE : getWifiAccessPointsFromJSONObject cfg.geolocationWifiPayloadField pl.objectJson with
  | ok aps => rw [hE] at hex; simp [exceptOk] at hex
  | error e => rw [if_pos hw]

theorem geolocationWifiStep_pass {cfg : Config} (env : Env) (B : List Frame)
    {pl : UplinkEvent} (h : wifiQualifies cfg pl = false)
    (h2 : wifiExtractFails cfg pl = false) :
    geolocationWifiStep cfg env B pl = geolocationTDOAStep cfg env B := by
  unfold geolocationWifiStep
  by_cases hw : cfg.geolocationWifi = true
  · cases hE : getWifiAccessPointsFromJSONObject cfg.geolocationWifiPayloadField pl.objectJson with
    | ok aps =>
      have hae : aps.isEmpty = true := by
        rw [wifiQualifies, hw, Bool.true_and, hE] at h
        simpa using h
      rw [if_pos hw]
      simp [List.isEmpty_iff.mp hae]
    | error e =>
      rw [wifiExtractFails, hw, Bool.true_and, hE] at h2
      simp [exceptOk] at h2
  · rw [if_neg hw]

theorem geolocationWifiStep_fire {cfg : Config} (env : Env) (B : List Frame)
    {pl : UplinkEvent} (h : wifiQualifies cfg pl = true) :
    geolocationWifiStep cfg env B pl =
      ((wifiTDOAGeolocation env pl.rxInfo (wifiAPList cfg pl)).1.map
         (fun loc => ([], loc)),
       (wifiTDOAGeolocation env pl.rxInfo (wifiAPList cfg pl)).2) := by
  rw [wifiQualifies] at h
  simp only [Bool.and_eq_true] at h
  obtain ⟨hw, hne⟩ := h
  unfold geolocationWifiStep
  cases hE : getWifiAccessPointsFromJSONObject cfg.geolocationWifiPayloadField pl.objectJson with
  | ok aps =>
    rw [hE] at hne
    have hne' : aps ≠ [] := by simpa [List.isEmpty_iff] using hne
    have hl : ¬ aps.length = 0 := by simpa [List.length_eq_zero] using hne'
    rw [if_pos hw]
    simp [wifiAPList, hE, hl]
  | error e => rw [hE] at hne; simp at hne

theorem geolocation_gnss_halt {cfg : Config} (env : Env) (B : List Frame)
    {pl : UplinkEvent} (h : gnssExtractFails cfg pl = true) :
    geolocation cfg env B pl = (.ok ([], none), []) := by
  rw [gnssExtractFails] at h
  simp only [Bool.and_eq_true] at h
  obtain ⟨hg, hex⟩ := h
  unfold geolocation
  cases hE : getBytesFromJSONObject cfg.geolocationGNSSPayloadField pl.objectJson with
  | ok b => rw [hE] at hex; simp [exceptOk] at hex
  | error e => rw [if_pos hg]

theorem geolocation_gnss_pass {cfg : Config} (env : Env) (B : List Frame)
    {pl : UplinkEvent} (h : gnssQualifies cfg pl = false)
    (h2 : gnssExtractFails cfg pl = false) :
    geolocation cfg env B pl = geolocationWifiStep cfg env B pl := by
  unfold geolocation
  by_cases hg : cfg.geolocationGNSS = true
  · cases hE : getBytesFromJSONObject cfg.geolocationGNSSPayloadField pl.objectJson with
    | ok b =>
      have hbe : b.isEmpty = true := by
        rw [gnssQualifies, hg, Bool.true_and, hE] at h
        simpa using h
      rw [if_pos hg]
      simp [List.isEmpty_iff.mp hbe]
    | error e =>
      rw [gnssExtractFails, hg, Bool.true_and, hE] at h2
      simp [exceptOk] at h2
  · rw [if_neg hg]

theorem geolocation_gnss_fire {cfg : Config} (env : Env) (B : List Frame)
    {pl : UplinkEvent} (h : gnssQualifies cfg pl = true) :
    geolocation cfg env B pl =
      ((gnssLR1110Geolocation cfg env pl.rxInfo (gnssBlob cfg pl)).1.map
         (fun loc => ([], loc)),
       (gnssLR1110Geolocation cfg env pl.rxInfo (gnssBlob cfg pl)).2) := by
  rw [gnssQualifies] at h
  simp only [Bool.and_eq_true] at h
  obtain ⟨hg, hne⟩ := h
  unfold geolocation
  cases hE : getBytesFromJSONObject cfg.geolocationGNSSPayloadField pl.objectJson with
  | ok b =>
    rw [hE] at hne
    have hne' : b ≠ [] := by simpa [List.isEmpty_iff] using hne
    have hl : ¬ b.length = 0 := by simpa [List.length_eq_zero] using hne'
    rw [if_pos hg]
    simp [gnssBlob, hE, hl]
  | error e => rw [hE] at hne; simp at hne

/-! ## Helper lemmas: buffer update and facade -/

theorem updateGeolocBuffer_get_err {env : Env} {e : String} (pl : UplinkEvent)
    (hget : env.getResult = .error e) :
    updateGeolocBuffer env pl =
      (.error ("get geoloc buffer error: " ++ e), [.bufferGet]) := by
  unfold updateGeolocBuffer
  rw [hget]

theorem updateGeolocBuffer_ok {env : Env} {B0 : List Frame} (pl : UplinkEvent)
    (hget : env.getResult = .ok B0) (hsave : env.saveOk = true)
    (hne : updatedBuffer B0 pl ≠ []) :
    updateGeolocBuffer env pl =
      (.ok (updatedBuffer B0 pl),
       [.bufferGet, .bufferSave (updatedBuffer B0 pl)]) := by
  have hlen : (updatedBuffer B0 pl).length ≠ 0 := by
    simpa [List.length_eq_zero] using hne
  unfold updateGeolocBuffer
  rw [hget]
  simp only [if_pos hlen, if_pos hsave]

theorem updateGeolocBuffer_ok_empty {env : Env} {B0 : List Frame} (pl : UplinkEvent)
    (hget : env.getResult = .ok B0) (he : updatedBuffer B0 pl = []) :
    updateGeolocBuffer env pl = (.ok [], [.bufferGet]) := by
  unfold updateGeolocBuffer
  rw [hget]
  simp [he]

theorem updateGeolocBuffer_save_err {env : Env} {B0 : List Frame} (pl : UplinkEvent)
    (hget : env.getResult = .ok B0) (hsave : env.saveOk = false)
    (hne : updatedBuffer B0 pl ≠ []) :
    updateGeolocBuffer env pl =
      (.error "save geoloc buffer error",
       [.bufferGet, .bufferSave (updatedBuffer B0 pl)]) := by
  have hlen : (updatedBuffer B0 pl).length ≠ 0 := by
    simpa [List.length_eq_zero] using hne
  unfold updateGeolocBuffer
  rw [hget]
  simp only [if_pos hlen, hsave, if_neg]
  simp

theorem handleUplinkEvent_off {cfg : Config} (env : Env) (pl : UplinkEvent)
    (h : cfg.geolocation = false) :
    handleUplinkEvent cfg env pl = (.ok (), []) := by
  unfold handleUplinkEvent
  rw [h]
  rfl

theorem handleUplinkEvent_update_err {cfg : Config} {env : Env} {pl : UplinkEvent}
    {e : String} {eff1 : List Effect} (hg : cfg.geolocation = true)
    (hu : updateGeolocBuffer env pl = (.error e, eff1)) :
    handleUplinkEvent cfg env pl =
      (.error ("update geolocation buffer error: " ++ e), eff1) := by
  unfold handleUplinkEvent
  rw [if_pos hg, hu]

theorem handleUplinkEvent_geo_err {cfg : Config} {env : Env} {pl : UplinkEvent}
    {B : List Frame} {eff1 eff2 : List Effect} {e : String}
    (hg : cfg.geolocation = true)
    (hu : updateGeolocBuffer env pl = (.ok B, eff1))
    (hgeo : geolocation cfg env B pl = (.error e, eff2)) :
    handleUplinkEvent cfg env pl =
      (.error ("geolocation error: " ++ e), eff1 ++ eff2) := by
  unfold handleUplinkEvent
  rw [if_pos hg, hu]
  simp only [hgeo]

theorem handleUplinkEvent_geo_none {cfg : Config} {env : Env} {pl : UplinkEvent}
    {B : List Frame} {eff1 eff2 : List Effect} {ids : List (List Nat)}
    (hg : cfg.geolocation = true)
    (hu : updateGeolocBuffer env pl = (.ok B, eff1))
    (hgeo : geolocation cfg env B pl = (.ok (ids, none), eff2)) :
    handleUplinkEvent cfg env pl = (.ok (), eff1 ++ eff2) := by
  unfold handleUplinkEvent
  rw [if_pos hg, hu]
  simp only [hgeo]

theorem handleUplinkEvent_geo_some {cfg : Config} {env : Env} {pl : UplinkEvent}
    {B : List Frame} {eff1 eff2 : List Effect} {ids : List (List Nat)}
    {loc : Location} (hg : cfg.geolocation = true)
    (hu : updateGeolocBuffer env pl = (.ok B, eff1))
    (hgeo : geolocation cfg env B pl = (.ok (ids, some loc), eff2)) :
    handleUplinkEvent cfg env pl =
      (.ok (), eff1 ++ eff2 ++
        [.emitLocationEvent (mkLocationEvent pl ids loc)]) := by
  unfold handleUplinkEvent
  rw [if_pos hg, hu]
  simp only [hgeo]

/-! ## Helper lemmas: the metadata filter as map-then-filter -/

/-- The inner reception loop of `filterOnFineTimestamp` is a filter on
fine-timestamp presence. -/
theorem filterOnFineTimestamp_inner (frame : Frame) (acc : List UplinkRXInfo) :
    frame.foldl (fun f r => if r.fineTimestamp.isSome then f ++ [r] else f) acc
      = acc ++ frame.filter (fun r => r.fineTimestamp.isSome) := by
  induction frame generalizing acc with
  | nil => simp
  | cons r rest ih =>
    simp only [List.foldl_cons, List.filter_cons]
    by_cases h : r.fineTimestamp.isSome = true
    · rw [if_pos h, ih, if_pos h]
      simp
    · rw [if_neg h, ih, if_neg h]

/-- The frame loop of `filterOnFineTimestamp`, with the inner loop
already rewritten as a filter, computes the spec's map-then-filter,
relative to any accumulator. -/
theorem filterOnFineTimestamp_outer (buf : List Frame) (m : Int) (out : List Frame) :
    buf.foldl (fun out frame =>
        if m ≤ ((frame.filter (fun r => r.fineTimestamp.isSome)).length : Int)
        then out ++ [frame.filter (fun r => r.fineTimestamp.isSome)] else out) out
      = out ++ filterOnFineTimestampSpec buf m := by
  induction buf generalizing out with
  | nil => simp [filterOnFineTimestampSpec]
  | cons frame rest ih =>
    simp only [List.foldl_cons]
    by_cases h : m ≤ ((frame.filter (fun r => r.fineTimestamp.isSome)).length : Int)
    · rw [if_pos h, ih]
      simp [filterOnFineTimestampSpec, h]
    · rw [if_neg h, ih]
      simp [filterOnFineTimestampSpec, h]

/-- `filterOnFineTimestamp` equals the spec's map-then-filter. -/
theorem filterOnFineTimestamp_spec (buf : List Frame) (m : Int) :
    filterOnFineTimestamp buf m = filterOnFineTimestampSpec buf m := by
  unfold filterOnFineTimestamp
  have hfun : (fun (out : List Frame) (frame : Frame) =>
      let f := frame.foldl
        (fun f r => if r.fineTimestamp.isSome then f ++ [r] else f) []
      if m ≤ (f.length : Int) then out ++ [f] else out)
    = (fun out frame =>
        if m ≤ ((frame.filter (fun r => r.fineTimestamp.isSome)).length : Int)
        then out ++ [frame.filter (fun r => r.fineTimestamp.isSome)] else out) := by
    funext out frame
    simp only [filterOnFineTimestamp_inner, List.nil_append]
  rw [hfun, filterOnFineTimestamp_outer]
  simp

/-- Every frame surviving `filterOnFineTimestamp buf 3` has at least 3
receptions (all fine-timestamped). -/
theorem filterOnFineTimestamp_mem_length {buf : List Frame} {f : Frame}
    (h : f ∈ filterOnFineTimestamp buf 3) : 3 ≤ f.length := by
  rw [filterOnFineTimestamp_spec, filterOnFineTimestampSpec] at h
  have := List.of_mem_filter h
  have h3 : (3 : Int) ≤ (f.length : Int) := of_decide_eq_true this
  exact_mod_cast h3

/-! ## Helper lemmas: composed strategy selection -/

theorem extractorsOk_eq {cfg : Config} {pl : UplinkEvent}
    (h : extractorsOk cfg pl = true) :
    gnssExtractFails cfg pl = false ∧ wifiExtractFails cfg pl = false := by
  unfold extractorsOk at h
  constructor
  · cases hgE : gnssExtractFails cfg pl
    · rfl
    · rw [hgE] at h; simp at h
  · cases hwE : wifiExtractFails cfg pl
    · rfl
    · rw [hwE] at h; simp at h

theorem tdoaGeolocation_fst (env : Env) (F : List Frame) :
    (tdoaGeolocation env F).1 =
      interpretResolver
        (if F.length = 1 then env.tdoaSingleResp else env.tdoaMultiResp) := by
  unfold tdoaGeolocation
  split <;> simp_all

theorem rssiGeolocation_fst (env : Env) (F : List Frame) :
    (rssiGeolocation env F).1 =
      interpretResolver
        (if F.length = 1 then env.rssiSingleResp else env.rssiMultiResp) := by
  unfold rssiGeolocation
  split <;> simp_all

theorem attempted_tdoaGeolocation (env : Env) (F : List Frame) :
    attemptedStrategies (tdoaGeolocation env F).2 = [.tdoa] := by
  unfold tdoaGeolocation
  split <;> rfl

theorem attempted_rssiGeolocation (env : Env) (F : List Frame) :
    attemptedStrategies (rssiGeolocation env F).2 = [.rssi] := by
  unfold rssiGeolocation
  split <;> rfl

theorem geolocation_select_wifi {cfg : Config} (env : Env) (B : List Frame)
    {pl : UplinkEvent} (h0 : gnssQualifies cfg pl = false)
    (h1 : gnssExtractFails cfg pl = false) (h2 : wifiQualifies cfg pl = true) :
    geolocation cfg env B pl =
      ((wifiTDOAGeolocation env pl.rxInfo (wifiAPList cfg pl)).1.map
         (fun loc => ([], loc)),
       (wifiTDOAGeolocation env pl.rxInfo (wifiAPList cfg pl)).2) := by
  rw [geolocation_gnss_pass env B h0 h1, geolocationWifiStep_fire env B h2]

theorem geolocation_select_tdoa {cfg : Config} (env : Env) (B : List Frame)
    {pl : UplinkEvent} (h0 : gnssQualifies cfg pl = false)
    (h1 : gnssExtractFails cfg pl = false) (h2 : wifiQualifies cfg pl = false)
    (h3 : wifiExtractFails cfg pl = false) (h4 : tdoaQualifies cfg B = true) :
    geolocation cfg env B pl =
      ((tdoaGeolocation env (filterOnFineTimestamp B 3)).1.map
         (fun loc => (uplinkIDsOf (filterOnFineTimestamp B 3), loc)),
       (tdoaGeolocation env (filterOnFineTimestamp B 3)).2) := by
  rw [geolocation_gnss_pass env B h0 h1, geolocationWifiStep_pass env B h2 h3,
    geolocationTDOAStep_fire env h4]

theorem geolocation_select_rssi {cfg : Config} (env : Env) (B : List Frame)
    {pl : UplinkEvent} (h0 : gnssQualifies cfg pl = false)
    (h1 : gnssExtractFails cfg pl = false) (h2 : wifiQualifies cfg pl = false)
    (h3 : wifiExtractFails cfg pl = false) (h4 : tdoaQualifies cfg B = false)
    (h5 : rssiQualifies cfg B = true) :
    geolocation cfg env B pl =
      ((rssiGeolocation env B).1.map (fun loc => (uplinkIDsOf B, loc)),
       (rssiGeolocation env B).2) := by
  rw [geolocation_gnss_pass env B h0 h1, geolocationWifiStep_pass env B h2 h3,
    geolocationTDOAStep_skip env h4, geolocationRSSIStep_fire env h5]

theorem geolocation_select_skip {cfg : Config} (env : Env) (B : List Frame)
    {pl : UplinkEvent} (h0 : gnssQualifies cfg pl = false)
    (h1 : gnssExtractFails cfg pl = false) (h2 : wifiQualifies cfg pl = false)
    (h3 : wifiExtractFails cfg pl = false) (h4 : tdoaQualifies cfg B = false)
    (h5 : rssiQualifies cfg B = false) :
    geolocation cfg env B pl = (.ok ([], none), []) := by
  rw [geolocation_gnss_pass env B h0 h1, geolocationWifiStep_pass env B h2 h3,
    geolocationTDOAStep_skip env h4, geolocationRSSIStep_skip env h5]

/-- Under successful extraction, the resolver calls of the orchestrator
are exactly those of the spec's first qualifying strategy. -/
theorem geolocation_attempts {cfg : Config} (env : Env) (B : List Frame)
    {pl : UplinkEvent} (hex : extractorsOk cfg pl = true) :
    attemptedStrategies (geolocation cfg env B pl).2
      = strategyAttempts (selectStrategy cfg B pl) := by
  obtain ⟨hgE, hwE⟩ := extractorsOk_eq hex
  unfold selectStrategy
  by_cases h0 : gnssQualifies cfg pl = true
  · rw [if_pos h0, geolocation_gnss_fire env B h0]
    rfl
  · have h0' : gnssQualifies cfg pl = false := Bool.eq_false_iff.mpr h0
    rw [if_neg h0]
    by_cases h2 : wifiQualifies cfg pl = true
    · rw [if_pos h2, geolocation_select_wifi env B h0' hgE h2]
      rfl
    · have h2' : wifiQualifies cfg pl = false := Bool.eq_false_iff.mpr h2
      rw [if_neg h2]
      by_cases h4 : tdoaQualifies cfg B = true
      · rw [if_pos h4, geolocation_select_tdoa env B h0' hgE h2' hwE h4]
        show attemptedStrategies (tdoaGeolocation env (filterOnFineTimestamp B 3)).2 = _
        rw [attempted_tdoaGeolocation]
        rfl
      · have h4' : tdoaQualifies cfg B = false := Bool.eq_false_iff.mpr h4
        rw [if_neg h4]
        by_cases h5 : rssiQualifies cfg B = true
        · rw [if_pos h5, geolocation_select_rssi env B h0' hgE h2' hwE h4' h5]
          show attemptedStrategies (rssiGeolocation env B).2 = _
          rw [attempted_rssiGeolocation]
          rfl
        · have h5' : rssiQualifies cfg B = false := Bool.eq_false_iff.mpr h5
          rw [if_neg h5, geolocation_select_skip env B h0' hgE h2' hwE h4' h5']
          rfl

/-- Under successful extraction, when the selected strategy's resolver
answers "no location" the orchestrator returns success with no
location. -/
theorem geolocation_noLocation {cfg : Config} (env : Env) (B : List Frame)
    {pl : UplinkEvent} (hex : extractorsOk cfg pl = true)
    (hresp : strategyResp env B (selectStrategy cfg B pl) = .noLocation) :
    ∃ ids, (geolocation cfg env B pl).1 = .ok (ids, none) := by
  obtain ⟨hgE, hwE⟩ := extractorsOk_eq hex
  unfold selectStrategy at hresp
  by_cases h0 : gnssQualifies cfg pl = true
  · rw [if_pos h0] at hresp
    rw [geolocation_gnss_fire env B h0]
    refine ⟨[], ?_⟩
    show ((gnssLR1110Geolocation cfg env pl.rxInfo (gnssBlob cfg pl)).1.map
      (fun loc => ([], loc))) = _
    unfold gnssLR1110Geolocation
    rw [show env.gnssResp = .noLocation from hresp]
    rfl
  · have h0' : gnssQualifies cfg pl = false := Bool.eq_false_iff.mpr h0
    rw [if_neg h0] at hresp
    by_cases h2 : wifiQualifies cfg pl = true
    · rw [if_pos h2] at hresp
      rw [geolocation_select_wifi env B h0' hgE h2]
      refine ⟨[], ?_⟩
      show ((wifiTDOAGeolocation env pl.rxInfo (wifiAPList cfg pl)).1.map
        (fun loc => ([], loc))) = _
      unfold wifiTDOAGeolocation
      rw [show env.wifiResp = .noLocation from hresp]
      rfl
    · have h2' : wifiQualifies cfg pl = false := Bool.eq_false_iff.mpr h2
      rw [if_neg h2] at hresp
      by_cases h4 : tdoaQualifies cfg B = true
      · rw [if_pos h4] at hresp
        rw [geolocation_select_tdoa env B h0' hgE h2' hwE h4]
        refine ⟨uplinkIDsOf (filterOnFineTimestamp B 3), ?_⟩
        show ((tdoaGeolocation env (filterOnFineTimestamp B 3)).1.map
          (fun loc => (uplinkIDsOf (filterOnFineTimestamp B 3), loc))) = _
        rw [tdoaGeolocation_fst]
        have hr : (if (filterOnFineTimestamp B 3).length = 1 then env.tdoaSingleResp
            else env.tdoaMultiResp) = .noLocation := hresp
        rw [hr]
        rfl
      · have h4' : tdoaQualifies cfg B = false := Bool.eq_false_iff.mpr h4
        rw [if_neg h4] at hresp
        by_cases h5 : rssiQualifies cfg B = true
        · rw [if_pos h5] at hresp
          rw [geolocation_select_rssi env B h0' hgE h2' hwE h4' h5]
          refine ⟨uplinkIDsOf B, ?_⟩
          show ((rssiGeolocation env B).1.map
            (fun loc => (uplinkIDsOf B, loc))) = _
          rw [rssiGeolocation_fst]
          have hr : (if B.length = 1 then env.rssiSingleResp
              else env.rssiMultiResp) = .noLocation := hresp
          rw [hr]
          rfl
        · have h5' : rssiQualifies cfg B = false := Bool.eq_false_iff.mpr h5
          rw [geolocation_select_skip env B h0' hgE h2' hwE h4' h5']
          exact ⟨[], rfl⟩

/-! ## Helper lemmas: buffer facts -/

theorem updatedBuffer_short {B0 : List Frame} {pl : UplinkEvent}
    (h : pl.rxInfo.length < 3) : updatedBuffer B0 pl = B0 := by
  unfold updatedBuffer
  rw [if_neg (by omega)]

theorem updatedBuffer_inv {B0 : List Frame} {pl : UplinkEvent}
    (hB : ∀ f ∈ B0, 3 ≤ f.length) :
    ∀ f ∈ updatedBuffer B0 pl, 3 ≤ f.length := by
  intro f hf
  unfold updatedBuffer at hf
  by_cases h3 : 3 ≤ pl.rxInfo.length
  · rw [if_pos h3] at hf
    rcases List.mem_append.mp hf with h | h
    · exact hB f h
    · rw [List.mem_singleton.mp h]
      exact h3
  · rw [if_neg h3] at hf
    exact hB f hf

theorem updateGeolocBuffer_ok_exists {env : Env} {B0 : List Frame}
    (pl : UplinkEvent) (hget : env.getResult = .ok B0)
    (hsave : env.saveOk = true) :
    ∃ eff1, updateGeolocBuffer env pl = (.ok (updatedBuffer B0 pl), eff1) ∧
      attemptedStrategies eff1 = [] ∧ emittedEvents eff1 = [] := by
  by_cases hne : updatedBuffer B0 pl = []
  · refine ⟨[.bufferGet], ?_, rfl, rfl⟩
    rw [updateGeolocBuffer_ok_empty pl hget hne, hne]
  · exact ⟨_, updateGeolocBuffer_ok pl hget hsave hne, rfl, rfl⟩

/-! ## Claims -/

/-- C7: `filter_on_fine_timestamp` is a pure total function that, for
every input buffer, retains within each frame exactly the receptions
whose fine timestamp is present, drops every frame whose retained count
is below `min_per_frame`, and preserves the relative order of the
surviving frames and of the surviving receptions within each frame: it
coincides with the order-preserving map-then-filter the spec
describes. -/
theorem C7_filterOnFineTimestamp_is_map_filter (buf : List Frame) (m : Int) :
    filterOnFineTimestamp buf m = filterOnFineTimestampSpec buf m :=
  filterOnFineTimestamp_spec buf m

/-- C9: with the geolocation master flag off, `HandleUplinkEvent`
returns success immediately and performs no I/O whatsoever — no buffer
read or write, no resolver call and no emitted `LocationEvent` — for
every environment and uplink. -/
theorem C9_disabled_geolocation_inert (cfg : Config) (env : Env)
    (pl : UplinkEvent) (h : cfg.geolocation = false) :
    handleUplinkEvent cfg env pl = (.ok (), []) :=
  handleUplinkEvent_off env pl h

/-- C9 witness: the disabled configuration at a concrete uplink. -/
theorem C9_disabled_geolocation_inert_witness :
    cfgOff.geolocation = false ∧
      handleUplinkEvent cfgOff envBase plNoObject = (.ok (), []) :=
  ⟨rfl, C9_disabled_geolocation_inert cfgOff envBase plNoObject rfl⟩

/-- C6: the buffer update appends the current frame iff it has at least
3 receptions, and attempts a (TTL-refreshing) persist iff the resulting
sequence is non-empty: a save effect carries exactly the updated buffer,
an empty buffer is never saved, the length-3 invariant is preserved by
every save, and an uplink with fewer than 3 receptions leaves the
buffered frames unchanged. -/
theorem C6_buffer_update_invariants (env : Env) (pl : UplinkEvent)
    (B0 : List Frame) (hget : env.getResult = .ok B0) :
    ((Effect.bufferSave (updatedBuffer B0 pl) ∈ (updateGeolocBuffer env pl).2)
        ↔ updatedBuffer B0 pl ≠ []) ∧
    (∀ b, Effect.bufferSave b ∈ (updateGeolocBuffer env pl).2 →
      b = updatedBuffer B0 pl) ∧
    ((∀ f ∈ B0, 3 ≤ f.length) →
      ∀ b, Effect.bufferSave b ∈ (updateGeolocBuffer env pl).2 →
        ∀ f ∈ b, 3 ≤ f.length) ∧
    (pl.rxInfo.length < 3 → updatedBuffer B0 pl = B0) := by
  have hmain : (Effect.bufferSave (updatedBuffer B0 pl) ∈ (updateGeolocBuffer env pl).2
        ↔ updatedBuffer B0 pl ≠ []) ∧
      (∀ b, Effect.bufferSave b ∈ (updateGeolocBuffer env pl).2 →
        b = updatedBuffer B0 pl) := by
    by_cases hne : updatedBuffer B0 pl = []
    · rw [updateGeolocBuffer_ok_empty pl hget hne]
      constructor
      · simp [hne]
      · intro b hb
        simp at hb
    · cases hsave : env.saveOk
      · rw [updateGeolocBuffer_save_err pl hget hsave hne]
        constructor
        · simp [hne]
        · intro b hb
          simp at hb
          exact hb.symm ▸ rfl
      · rw [updateGeolocBuffer_ok pl hget hsave hne]
        constructor
        · simp [hne]
        · intro b hb
          simp at hb
          exact hb.symm ▸ rfl
  refine ⟨hmain.1, hmain.2, ?_, fun h => updatedBuffer_short h⟩
  intro hB b hb f hf
  exact updatedBuffer_inv hB f (hmain.2 b hb ▸ hf)

/-- C6 witness: a concrete short-frame uplink (2 receptions) against a
stored buffer of one length-3 frame. -/
theorem C6_buffer_update_invariants_witness :
    (⟨.ok [frameFT], true, .noLocation, .noLocation, .noLocation,
        .noLocation, .noLocation, .noLocation, true⟩ : Env).getResult
      = .ok [frameFT] ∧
    ((Effect.bufferSave (updatedBuffer [frameFT] plShort) ∈
        (updateGeolocBuffer ⟨.ok [frameFT], true, .noLocation, .noLocation,
          .noLocation, .noLocation, .noLocation, .noLocation, true⟩ plShort).2)
        ↔ updatedBuffer [frameFT] plShort ≠ []) ∧
    (∀ b, Effect.bufferSave b ∈
        (updateGeolocBuffer ⟨.ok [frameFT], true, .noLocation, .noLocation,
          .noLocation, .noLocation, .noLocation, .noLocation, true⟩ plShort).2 →
      b = updatedBuffer [frameFT] plShort) ∧
    ((∀ f ∈ [frameFT], 3 ≤ f.length) →
      ∀ b, Effect.bufferSave b ∈
          (updateGeolocBuffer ⟨.ok [frameFT], true, .noLocation, .noLocation,
            .noLocation, .noLocation, .noLocation, .noLocation, true⟩ plShort).2 →
        ∀ f ∈ b, 3 ≤ f.length) ∧
    (plShort.rxInfo.length < 3 → updatedBuffer [frameFT] plShort = [frameFT]) :=
  ⟨rfl, C6_buffer_update_invariants _ plShort [frameFT] rfl⟩

/-- C8: with geolocation enabled, `HandleUplinkEvent` fails exactly when
the buffer update or the orchestrator fails, in each case wrapping the
failure with its context; when both succeed the handler returns success
for every environment, in particular whatever the sink outcome
(`env.sinkOk` is never consulted). -/
theorem C8_error_propagation (cfg : Config) (env : Env) (pl : UplinkEvent)
    (hg : cfg.geolocation = true) :
    (∀ e eff1, updateGeolocBuffer env pl = (.error e, eff1) →
      handleUplinkEvent cfg env pl =
        (.error ("update geolocation buffer error: " ++ e), eff1)) ∧
    (∀ B eff1 e eff2, updateGeolocBuffer env pl = (.ok B, eff1) →
      geolocation cfg env B pl = (.error e, eff2) →
      handleUplinkEvent cfg env pl =
        (.error ("geolocation error: " ++ e), eff1 ++ eff2)) ∧
    (∀ B eff1 r eff2, updateGeolocBuffer env pl = (.ok B, eff1) →
      geolocation cfg env B pl = (.ok r, eff2) →
      (handleUplinkEvent cfg env pl).1 = .ok ()) := by
  refine ⟨fun e eff1 hu => handleUplinkEvent_update_err hg hu,
    fun B eff1 e eff2 hu hgeo => handleUplinkEvent_geo_err hg hu hgeo,
    fun B eff1 r eff2 hu hgeo => ?_⟩
  obtain ⟨ids, loc⟩ := r
  cases loc with
  | none => rw [handleUplinkEvent_geo_none hg hu hgeo]
  | some l => rw [handleUplinkEvent_geo_some hg hu hgeo]

/-- C8 witness: a failing buffer read (with a failing sink) propagates
wrapped, at a concrete input. -/
theorem C8_error_propagation_witness :
    cfgBase.geolocation = true ∧
      handleUplinkEvent cfgBase envGetErr plNoObject =
        (.error "update geolocation buffer error: get geoloc buffer error: boom",
         [.bufferGet]) :=
  ⟨rfl, (C8_error_propagation cfgBase envGetErr plNoObject rfl).1
    "get geoloc buffer error: boom" [.bufferGet] rfl⟩

/-- C1 (code bug): when the WiFi strategy fires and the resolver fails
with a non-sentinel error (here a transport error), `HandleUplinkEvent`
does not propagate the error — it returns success — and a
`LocationEvent` carrying the zero-valued location is emitted to the
sink.  The `wifiTDOAGeolocation` source checks `err == ErrNoLocation`
but has no return for any other error, falling through to
`return &loc, nil`. -/
theorem C1_wifi_resolver_error_swallowed :
    handleUplinkEvent cfgWifi envWifiErr plWifi =
      (.ok (), [.bufferGet, .bufferSave [frameFT], .callWifi frameFT [apFix],
        .emitLocationEvent (mkLocationEvent plWifi [] zeroLocation)]) := by
  rfl

/-- C10: the WiFi extractor does not validate that a `macAddress`
base64-decodes to exactly 6 bytes: every access-point entry whose
`macAddress` decodes to some byte list `b` (and whose `signalStrength`
is numeric) extracts successfully, the resulting MAC being the first
`min (length b) 6` decoded bytes with the remaining trailing bytes of
the 6-byte array left zero — shorter blobs are zero-padded and longer
blobs silently truncated rather than rejected. -/
theorem C10_mac_length_not_validated (s : String) (b : List Nat) (ss : Int)
    (rest : List GoValue) (hdec : base64Decode s = some b) :
    wifiAPsFromList
        (.obj [("macAddress", .str s), ("signalStrength", .num ss)] :: rest)
      = (wifiAPsFromList rest).map
          (fun aps =>
            (⟨b.take 6 ++ List.replicate (6 - b.length) 0, ss⟩ :
              WifiAccessPoint) :: aps) := by
  have hmac : lookupField
      [("macAddress", GoValue.str s), ("signalStrength", GoValue.num ss)]
      "macAddress" = some (.str s) := rfl
  have hsig : lookupField
      [("macAddress", GoValue.str s), ("signalStrength", GoValue.num ss)]
      "signalStrength" = some (.num ss) := rfl
  have hap : extractWifiAP
      (.obj [("macAddress", .str s), ("signalStrength", .num ss)])
      = .ok ⟨goMacCopy b, ss⟩ := by
    simp only [extractWifiAP, hmac, hdec, hsig]
  have hcons : wifiAPsFromList
      (.obj [("macAddress", .str s), ("signalStrength", .num ss)] :: rest)
      = match wifiAPsFromList rest with
        | .error e => .error e
        | .ok aps => .ok ((⟨goMacCopy b, ss⟩ : WifiAccessPoint) :: aps) := by
    show (match extractWifiAP
        (.obj [("macAddress", .str s), ("signalStrength", .num ss)]) with
      | .error e => (.error e : Except String (List WifiAccessPoint))
      | .ok ap =>
        match wifiAPsFromList rest with
        | .error e => .error e
        | .ok aps => .ok (ap :: aps)) = _
    rw [hap]
  rw [hcons]
  cases hr : wifiAPsFromList rest with
  | error e => simp [Except.map, goMacCopy]
  | ok aps => simp [Except.map, goMacCopy]

/-- C10 witness: one entry with a 3-byte MAC blob (`"AQID"`, bytes
1 2 3) extracts to the zero-padded MAC `[1, 2, 3, 0, 0, 0]`. -/
theorem C10_mac_length_not_validated_witness :
    base64Decode "AQID" = some [1, 2, 3] ∧
    wifiAPsFromList
        [.obj [("macAddress", .str "AQID"), ("signalStrength", .num (-10))]]
      = (wifiAPsFromList []).map
          (fun aps =>
            (⟨[1, 2, 3].take 6 ++ List.replicate (6 - [1, 2, 3].length) 0, -10⟩ :
              WifiAccessPoint) :: aps) :=
  ⟨rfl, C10_mac_length_not_validated "AQID" [1, 2, 3] (-10) [] rfl⟩

/-- C2 counterexample: with GNSS and RSSI enabled and a malformed object
string, the GNSS extractor fails; RSSI is enabled and qualifies on the
updated buffer, yet the handler returns success after attempting no
strategy at all — the remaining lower-priority strategies are *not*
evaluated, contrary to the claim. -/
theorem C2_counterexample :
    gnssExtractFails cfgGnssRssi plMalformed = true ∧
    rssiQualifies cfgGnssRssi (updatedBuffer [] plMalformed) = true ∧
    handleUplinkEvent cfgGnssRssi envBase plMalformed
      = (.ok (), [.bufferGet, .bufferSave [frameFT]]) :=
  ⟨rfl, rfl, rfl⟩

/-- C2 (amended): when the GNSS extractor fails (or the GNSS block falls
through and the WiFi extractor fails), no error reaches the dispatcher —
given the buffer update succeeded, `HandleUplinkEvent` returns success —
the failing strategy produces no attempt, and the orchestrator returns
immediately: no strategy at all is attempted and no `LocationEvent` is
emitted for that uplink. -/
theorem C2_extract_failure_amended {cfg : Config} {env : Env}
    {pl : UplinkEvent} {B0 : List Frame} (hg : cfg.geolocation = true)
    (hget : env.getResult = .ok B0) (hsave : env.saveOk = true)
    (hfail : gnssExtractFails cfg pl = true ∨
      (gnssQualifies cfg pl = false ∧ gnssExtractFails cfg pl = false ∧
        wifiExtractFails cfg pl = true)) :
    (handleUplinkEvent cfg env pl).1 = .ok () ∧
    attemptedStrategies (handleUplinkEvent cfg env pl).2 = [] ∧
    emittedEvents (handleUplinkEvent cfg env pl).2 = [] := by
  obtain ⟨eff1, hu, ha1, he1⟩ := updateGeolocBuffer_ok_exists pl hget hsave
  have hgeo : geolocation cfg env (updatedBuffer B0 pl) pl
      = (.ok ([], none), []) := by
    rcases hfail with h | ⟨h0, h1, hW⟩
    · exact geolocation_gnss_halt env _ h
    · rw [geolocation_gnss_pass env _ h0 h1]
      exact geolocationWifiStep_halt env _ hW
  rw [handleUplinkEvent_geo_none hg hu hgeo]
  refine ⟨rfl, ?_, ?_⟩
  · simp [attemptedStrategies] at ha1 ⊢
    exact ha1
  · simp [emittedEvents] at he1 ⊢
    exact he1

/-- Splitting `attemptedStrategies` over a trace concatenation. -/
theorem attemptedStrategies_append (s t : List Effect) :
    attemptedStrategies (s ++ t)
      = attemptedStrategies s ++ attemptedStrategies t :=
  List.filterMap_append s t strategyOfEffect

/-- Splitting `emittedEvents` over a trace concatenation. -/
theorem emittedEvents_append (s t : List Effect) :
    emittedEvents (s ++ t) = emittedEvents s ++ emittedEvents t :=
  List.filterMap_append s t _

theorem emitted_tdoaGeolocation (env : Env) (F : List Frame) :
    emittedEvents (tdoaGeolocation env F).2 = [] := by
  unfold tdoaGeolocation
  split <;> rfl

theorem emitted_rssiGeolocation (env : Env) (F : List Frame) :
    emittedEvents (rssiGeolocation env F).2 = [] := by
  unfold rssiGeolocation
  split <;> rfl

/-- The orchestrator itself never emits a `LocationEvent`; only the
facade does. -/
theorem geolocation_no_emit (cfg : Config) (env : Env) (B : List Frame)
    (pl : UplinkEvent) :
    emittedEvents (geolocation cfg env B pl).2 = [] := by
  by_cases hgE : gnssExtractFails cfg pl = true
  · rw [geolocation_gnss_halt env B hgE]
    rfl
  · have hgE' : gnssExtractFails cfg pl = false := Bool.eq_false_iff.mpr hgE
    by_cases h0 : gnssQualifies cfg pl = true
    · rw [geolocation_gnss_fire env B h0]
      rfl
    · rw [geolocation_gnss_pass env B (Bool.eq_false_iff.mpr h0) hgE']
      by_cases hwE : wifiExtractFails cfg pl = true
      · rw [geolocationWifiStep_halt env B hwE]
        rfl
      · have hwE' : wifiExtractFails cfg pl = false := Bool.eq_false_iff.mpr hwE
        by_cases h2 : wifiQualifies cfg pl = true
        · rw [geolocationWifiStep_fire env B h2]
          rfl
        · rw [geolocationWifiStep_pass env B (Bool.eq_false_iff.mpr h2) hwE']
          by_cases h4 : tdoaQualifies cfg B = true
          · rw [geolocationTDOAStep_fire env h4]
            exact emitted_tdoaGeolocation env _
          · rw [geolocationTDOAStep_skip env (Bool.eq_false_iff.mpr h4)]
            by_cases h5 : rssiQualifies cfg B = true
            · rw [geolocationRSSIStep_fire env h5]
              exact emitted_rssiGeolocation env B
            · rw [geolocationRSSIStep_skip env (Bool.eq_false_iff.mpr h5)]
              rfl

/-- C3 counterexample: with GNSS and TDOA enabled and a malformed object
string, the spec's first qualifying strategy is TDOA (GNSS does not
qualify: its blob is not extracted), yet nothing at all is attempted and
the handler returns success — the first qualifying strategy is not
attempted. -/
theorem C3_counterexample :
    selectStrategy cfgGnssTdoa (updatedBuffer [] plMalformed) plMalformed
        = .tdoa ∧
    attemptedStrategies
        (handleUplinkEvent cfgGnssTdoa envBase plMalformed).2 = [] ∧
    (handleUplinkEvent cfgGnssTdoa envBase plMalformed).1 = .ok () :=
  ⟨rfl, rfl, rfl⟩

/-- C3 (amended): for every uplink on which the enabled object
extractors succeed, the orchestrator evaluates the strategies in the
fixed priority order GNSS, WiFi, TDOA, RSSI and the first strategy that
qualifies is the only one attempted; when its resolver answers the
NoLocation sentinel the outcome is final: no lower-priority strategy is
attempted, no `LocationEvent` is emitted, and `HandleUplinkEvent`
returns success.  (When an enabled extractor fails, no strategy is
attempted at all — see C2.) -/
theorem C3_strategy_priority_amended {cfg : Config} {env : Env}
    {pl : UplinkEvent} {B0 : List Frame} (hg : cfg.geolocation = true)
    (hget : env.getResult = .ok B0) (hsave : env.saveOk = true)
    (hex : extractorsOk cfg pl = true) :
    attemptedStrategies (handleUplinkEvent cfg env pl).2
      = strategyAttempts (selectStrategy cfg (updatedBuffer B0 pl) pl) ∧
    (strategyResp env (updatedBuffer B0 pl)
        (selectStrategy cfg (updatedBuffer B0 pl) pl) = .noLocation →
      (handleUplinkEvent cfg env pl).1 = .ok () ∧
      emittedEvents (handleUplinkEvent cfg env pl).2 = []) := by
  obtain ⟨eff1, hu, ha1, he1⟩ := updateGeolocBuffer_ok_exists pl hget hsave
  have hatt := geolocation_attempts env (updatedBuffer B0 pl) hex
  have hnoem := geolocation_no_emit cfg env (updatedBuffer B0 pl) pl
  rcases hgeo : geolocation cfg env (updatedBuffer B0 pl) pl with ⟨r, eff2⟩
  rw [hgeo] at hatt hnoem
  constructor
  · rcases r with e | ⟨ids, loc⟩
    · rw [handleUplinkEvent_geo_err hg hu hgeo]
      show attemptedStrategies (eff1 ++ eff2) = _
      rw [attemptedStrategies_append, ha1, hatt]
      rfl
    · cases loc with
      | none =>
        rw [handleUplinkEvent_geo_none hg hu hgeo]
        show attemptedStrategies (eff1 ++ eff2) = _
        rw [attemptedStrategies_append, ha1, hatt]
        rfl
      | some l =>
        rw [handleUplinkEvent_geo_some hg hu hgeo]
        show attemptedStrategies (eff1 ++ eff2 ++ [_]) = _
        rw [attemptedStrategies_append, attemptedStrategies_append, ha1, hatt]
        simp [attemptedStrategies, strategyOfEffect]
  · intro hresp
    obtain ⟨ids, hr1⟩ :=
      geolocation_noLocation env (updatedBuffer B0 pl) hex hresp
    rw [hgeo] at hr1
    have hr2 : r = .ok (ids, none) := hr1
    rw [hr2] at hgeo
    rw [handleUplinkEvent_geo_none hg hu hgeo]
    refine ⟨rfl, ?_⟩
    show emittedEvents (eff1 ++ eff2) = []
    rw [emittedEvents_append, he1, hnoem]
    rfl

/-- C3 witness: TDOA and RSSI enabled, a buffered frame qualifying for
TDOA, and a resolver answering NoLocation — the single attempt is TDOA
and nothing is emitted. -/
theorem C3_strategy_priority_amended_witness :
    cfgTdoaRssi.geolocation = true ∧ envBase.getResult = .ok [] ∧
    envBase.saveOk = true ∧ extractorsOk cfgTdoaRssi plNoObject = true ∧
    (attemptedStrategies (handleUplinkEvent cfgTdoaRssi envBase plNoObject).2
        = strategyAttempts
            (selectStrategy cfgTdoaRssi (updatedBuffer [] plNoObject) plNoObject) ∧
      (strategyResp envBase (updatedBuffer [] plNoObject)
          (selectStrategy cfgTdoaRssi (updatedBuffer [] plNoObject) plNoObject)
          = .noLocation →
        (handleUplinkEvent cfgTdoaRssi envBase plNoObject).1 = .ok () ∧
        emittedEvents (handleUplinkEvent cfgTdoaRssi envBase plNoObject).2 = [])) :=
  ⟨rfl, rfl, rfl, rfl, C3_strategy_priority_amended rfl rfl rfl rfl⟩

theorem hasTDOACall_tdoa (env : Env) (F : List Frame) :
    hasTDOACall (tdoaGeolocation env F).2 = true := by
  unfold hasTDOACall
  rw [attempted_tdoaGeolocation]
  rfl

theorem hasRSSICall_tdoa (env : Env) (F : List Frame) :
    hasRSSICall (tdoaGeolocation env F).2 = false := by
  unfold hasRSSICall
  rw [attempted_tdoaGeolocation]
  rfl

theorem hasTDOACall_rssi (env : Env) (F : List Frame) :
    hasTDOACall (rssiGeolocation env F).2 = false := by
  unfold hasTDOACall
  rw [attempted_rssiGeolocation]
  rfl

theorem hasRSSICall_rssi (env : Env) (F : List Frame) :
    hasRSSICall (rssiGeolocation env F).2 = true := by
  unfold hasRSSICall
  rw [attempted_rssiGeolocation]
  rfl

/-- C4 counterexample: with GNSS and TDOA enabled,
`geolocation_min_buffer_size = 0` and a malformed object string: TDOA is
enabled, neither higher-priority strategy fires (neither qualifies), and
the filtered buffer length meets `max 1 k`, yet no TDOA attempt
happens — the stated iff fails at this input. -/
theorem C4_counterexample :
    cfgGnssTdoa.geolocationTDOA = true ∧
    gnssQualifies cfgGnssTdoa plMalformed = false ∧
    wifiQualifies cfgGnssTdoa plMalformed = false ∧
    max 1 cfgGnssTdoa.geolocationMinBufferSize ≤
      ((filterOnFineTimestamp (updatedBuffer [] plMalformed) 3).length : Int) ∧
    hasTDOACall
        (geolocation cfgGnssTdoa envBase
          (updatedBuffer [] plMalformed) plMalformed).2 = false :=
  ⟨rfl, rfl, rfl, by decide, rfl⟩

/-- C4 (amended): a TDOA attempt happens iff TDOA is enabled, no
enabled higher-priority extractor fails, no higher-priority strategy
fires (qualifies), and the fine-timestamp-filtered buffer length is at
least `max 1 k`; an RSSI attempt happens iff RSSI is enabled, the same
holds with TDOA also not qualifying, and the unfiltered buffer length is
at least `max 1 k` (the `Qualifies` predicates spell out the
`≥ max 1 k` gates). -/
theorem C4_min_buffer_gating_amended (cfg : Config) (env : Env)
    (B : List Frame) (pl : UplinkEvent) :
    hasTDOACall (geolocation cfg env B pl).2
      = (!gnssExtractFails cfg pl && !gnssQualifies cfg pl &&
         !wifiExtractFails cfg pl && !wifiQualifies cfg pl &&
         tdoaQualifies cfg B) ∧
    hasRSSICall (geolocation cfg env B pl).2
      = (!gnssExtractFails cfg pl && !gnssQualifies cfg pl &&
         !wifiExtractFails cfg pl && !wifiQualifies cfg pl &&
         !tdoaQualifies cfg B && rssiQualifies cfg B) := by
  by_cases hgE : gnssExtractFails cfg pl = true
  · rw [geolocation_gnss_halt env B hgE]
    refine ⟨?_, ?_⟩ <;> simp [hgE, hasTDOACall, hasRSSICall, attemptedStrategies]
  · have hgE' : gnssExtractFails cfg pl = false := Bool.eq_false_iff.mpr hgE
    by_cases h0 : gnssQualifies cfg pl = true
    · rw [geolocation_gnss_fire env B h0]
      refine ⟨?_, ?_⟩ <;>
        simp [h0, hasTDOACall, hasRSSICall, attemptedStrategies,
          strategyOfEffect, gnssLR1110Geolocation]
    · have h0' : gnssQualifies cfg pl = false := Bool.eq_false_iff.mpr h0
      rw [geolocation_gnss_pass env B h0' hgE']
      by_cases hwE : wifiExtractFails cfg pl = true
      · rw [geolocationWifiStep_halt env B hwE]
        refine ⟨?_, ?_⟩ <;>
          simp [hwE, hasTDOACall, hasRSSICall, attemptedStrategies]
      · have hwE' : wifiExtractFails cfg pl = false := Bool.eq_false_iff.mpr hwE
        by_cases h2 : wifiQualifies cfg pl = true
        · rw [geolocationWifiStep_fire env B h2]
          refine ⟨?_, ?_⟩ <;>
            simp [h2, hasTDOACall, hasRSSICall, attemptedStrategies,
              strategyOfEffect, wifiTDOAGeolocation]
        · have h2' : wifiQualifies cfg pl = false := Bool.eq_false_iff.mpr h2
          rw [geolocationWifiStep_pass env B h2' hwE']
          by_cases h4 : tdoaQualifies cfg B = true
          · rw [geolocationTDOAStep_fire env h4]
            constructor
            · show hasTDOACall
                (tdoaGeolocation env (filterOnFineTimestamp B 3)).2 = _
              rw [hasTDOACall_tdoa]
              simp [hgE', h0', hwE', h2', h4]
            · show hasRSSICall
                (tdoaGeolocation env (filterOnFineTimestamp B 3)).2 = _
              rw [hasRSSICall_tdoa]
              simp [h4]
          · have h4' : tdoaQualifies cfg B = false := Bool.eq_false_iff.mpr h4
            rw [geolocationTDOAStep_skip env h4']
            by_cases h5 : rssiQualifies cfg B = true
            · rw [geolocationRSSIStep_fire env h5]
              constructor
              · show hasTDOACall (rssiGeolocation env B).2 = _
                rw [hasTDOACall_rssi]
                simp [h4']
              · show hasRSSICall (rssiGeolocation env B).2 = _
                rw [hasRSSICall_rssi]
                simp [hgE', h0', hwE', h2', h4', h5]
            · have h5' : rssiQualifies cfg B = false := Bool.eq_false_iff.mpr h5
              rw [geolocationRSSIStep_skip env h5']
              refine ⟨?_, ?_⟩ <;>
                simp [h4', h5', hasTDOACall, hasRSSICall, attemptedStrategies]

/-! ## Helper lemmas: non-empty uplink-id flattenings and emission shape -/

theorem tdoaQualifies_ne {cfg : Config} {B : List Frame}
    (h : tdoaQualifies cfg B = true) : filterOnFineTimestamp B 3 ≠ [] := by
  rw [tdoaQualifies] at h
  simp only [Bool.and_eq_true] at h
  have hm := of_decide_eq_true h.2
  have hlen : 1 ≤ ((filterOnFineTimestamp B 3).length : Int) :=
    le_trans (le_max_left _ _) hm
  intro hnil
  rw [hnil] at hlen
  simp at hlen

theorem rssiQualifies_ne {cfg : Config} {B : List Frame}
    (h : rssiQualifies cfg B = true) : B ≠ [] := by
  rw [rssiQualifies] at h
  simp only [Bool.and_eq_true] at h
  have hm := of_decide_eq_true h.2
  have hlen : 1 ≤ (B.length : Int) := le_trans (le_max_left _ _) hm
  intro hnil
  rw [hnil] at hlen
  simp at hlen

theorem uplinkIDsOf_ne_nil {F : List Frame} (hne : F ≠ [])
    (h : ∀ f ∈ F, 3 ≤ f.length) : uplinkIDsOf F ≠ [] := by
  cases F with
  | nil => exact absurd rfl hne
  | cons f rest =>
    have hf : 3 ≤ f.length := h f (List.mem_cons_self f rest)
    have hfne : f ≠ [] := by
      intro h0
      rw [h0] at hf
      simp at hf
    simp [uplinkIDsOf, hfne]

/-- When the orchestrator produces a location, the facade's trace emits
exactly the constructed event, and its resolver calls are the
orchestrator's. -/
theorem handle_trace_some {cfg : Config} {env : Env} {pl : UplinkEvent}
    {B : List Frame} {eff1 eff2 : List Effect} {ids : List (List Nat)}
    {loc : Location} (hg : cfg.geolocation = true)
    (hu : updateGeolocBuffer env pl = (.ok B, eff1))
    (ha1 : attemptedStrategies eff1 = []) (he1 : emittedEvents eff1 = [])
    (hgeo : geolocation cfg env B pl = (.ok (ids, some loc), eff2)) :
    emittedEvents (handleUplinkEvent cfg env pl).2
        = [mkLocationEvent pl ids loc] ∧
    attemptedStrategies (handleUplinkEvent cfg env pl).2
        = attemptedStrategies eff2 := by
  have hne2 : emittedEvents eff2 = [] := by
    have hx := geolocation_no_emit cfg env B pl
    rw [hgeo] at hx
    exact hx
  refine ⟨?_, ?_⟩ <;> rw [handleUplinkEvent_geo_some hg hu hgeo]
  · show emittedEvents (eff1 ++ eff2 ++ [_]) = _
    rw [emittedEvents_append, emittedEvents_append, he1, hne2]
    rfl
  · show attemptedStrategies (eff1 ++ eff2 ++ [_]) = _
    rw [attemptedStrategies_append, attemptedStrategies_append, ha1]
    simp [attemptedStrategies, strategyOfEffect]

/-- When the orchestrator yields no location, the facade emits
nothing. -/
theorem handle_trace_none {cfg : Config} {env : Env} {pl : UplinkEvent}
    {B : List Frame} {eff1 eff2 : List Effect} {ids : List (List Nat)}
    (hg : cfg.geolocation = true)
    (hu : updateGeolocBuffer env pl = (.ok B, eff1))
    (he1 : emittedEvents eff1 = [])
    (hgeo : geolocation cfg env B pl = (.ok (ids, none), eff2)) :
    emittedEvents (handleUplinkEvent cfg env pl).2 = [] := by
  have hne2 : emittedEvents eff2 = [] := by
    have hx := geolocation_no_emit cfg env B pl
    rw [hgeo] at hx
    exact hx
  rw [handleUplinkEvent_geo_none hg hu hgeo]
  show emittedEvents (eff1 ++ eff2) = []
  rw [emittedEvents_append, he1, hne2]
  rfl

/-- When the orchestrator fails, the facade emits nothing. -/
theorem handle_trace_err {cfg : Config} {env : Env} {pl : UplinkEvent}
    {B : List Frame} {eff1 eff2 : List Effect} {e : String}
    (hg : cfg.geolocation = true)
    (hu : updateGeolocBuffer env pl = (.ok B, eff1))
    (he1 : emittedEvents eff1 = [])
    (hgeo : geolocation cfg env B pl = (.error e, eff2)) :
    emittedEvents (handleUplinkEvent cfg env pl).2 = [] := by
  have hne2 : emittedEvents eff2 = [] := by
    have hx := geolocation_no_emit cfg env B pl
    rw [hgeo] at hx
    exact hx
  rw [handleUplinkEvent_geo_err hg hu hgeo]
  show emittedEvents (eff1 ++ eff2) = []
  rw [emittedEvents_append, he1, hne2]
  rfl

/-- C5: for every emitted `LocationEvent`, when the location was
produced by TDOA the event's `uplink_ids` equals the in-order flattened
concatenation of `uplink_id` over the fine-timestamp-filtered buffer
(exactly the frames and receptions sent to the resolver) and `f_cnt` is
left at zero; when produced by RSSI, the same over the unfiltered
buffer with `f_cnt` zero; when produced by GNSS or WiFi, `uplink_ids`
is empty and `f_cnt` equals the current uplink's `f_cnt`.  The buffer
read is assumed to satisfy the module's own persistence invariant
(every stored frame has at least 3 receptions, cf. C6). -/
theorem C5_uplink_id_propagation {cfg : Config} {env : Env}
    {pl : UplinkEvent} {B0 : List Frame} (hg : cfg.geolocation = true)
    (hget : env.getResult = .ok B0) (hsave : env.saveOk = true)
    (hinv : ∀ f ∈ B0, 3 ≤ f.length) :
    ∀ ev ∈ emittedEvents (handleUplinkEvent cfg env pl).2,
      (hasTDOACall (handleUplinkEvent cfg env pl).2 = true →
        ev.uplinkIds
            = uplinkIDsOf (filterOnFineTimestamp (updatedBuffer B0 pl) 3) ∧
        ev.fCnt = 0) ∧
      (hasRSSICall (handleUplinkEvent cfg env pl).2 = true →
        ev.uplinkIds = uplinkIDsOf (updatedBuffer B0 pl) ∧ ev.fCnt = 0) ∧
      ((hasGNSSCall (handleUplinkEvent cfg env pl).2 = true ∨
          hasWifiCall (handleUplinkEvent cfg env pl).2 = true) →
        ev.uplinkIds = [] ∧ ev.fCnt = pl.fCnt) := by
  intro ev hev
  obtain ⟨eff1, hu, ha1, he1⟩ := updateGeolocBuffer_ok_exists pl hget hsave
  by_cases hgE : gnssExtractFails cfg pl = true
  · rw [handle_trace_none hg hu he1
      (geolocation_gnss_halt env (updatedBuffer B0 pl) hgE)] at hev
    simp at hev
  · have hgE' : gnssExtractFails cfg pl = false := Bool.eq_false_iff.mpr hgE
    by_cases h0 : gnssQualifies cfg pl = true
    · cases hR : env.gnssResp with
      | ok loc =>
        have hgeo : geolocation cfg env (updatedBuffer B0 pl) pl
            = (.ok ([], some loc),
               [.callGNSS pl.rxInfo cfg.geolocationGNSSUseRxTime
                  (gnssBlob cfg pl)]) := by
          rw [geolocation_gnss_fire env (updatedBuffer B0 pl) h0]
          simp [gnssLR1110Geolocation, interpretResolver, hR, Except.map]
        obtain ⟨hemit, hatt⟩ := handle_trace_some hg hu ha1 he1 hgeo
        rw [hemit] at hev
        have hev' : ev = mkLocationEvent pl [] loc := by simpa using hev
        subst hev'
        refine ⟨?_, ?_, fun _ => ⟨rfl, rfl⟩⟩
        · intro hT
          unfold hasTDOACall at hT
          rw [hatt] at hT
          simp [attemptedStrategies, strategyOfEffect] at hT
        · intro hT
          unfold hasRSSICall at hT
          rw [hatt] at hT
          simp [attemptedStrategies, strategyOfEffect] at hT
      | noLocation =>
        have hgeo : geolocation cfg env (updatedBuffer B0 pl) pl
            = (.ok ([], none),
               [.callGNSS pl.rxInfo cfg.geolocationGNSSUseRxTime
                  (gnssBlob cfg pl)]) := by
          rw [geolocation_gnss_fire env (updatedBuffer B0 pl) h0]
          simp [gnssLR1110Geolocation, interpretResolver, hR, Except.map]
        rw [handle_trace_none hg hu he1 hgeo] at hev
        simp at hev
      | err e =>
        have hgeo : geolocation cfg env (updatedBuffer B0 pl) pl
            = (.error ("geolocation error: " ++ e),
               [.callGNSS pl.rxInfo cfg.geolocationGNSSUseRxTime
                  (gnssBlob cfg pl)]) := by
          rw [geolocation_gnss_fire env (updatedBuffer B0 pl) h0]
          simp [gnssLR1110Geolocation, interpretResolver, hR, Except.map]
        rw [handle_trace_err hg hu he1 hgeo] at hev
        simp at hev
    · have h0' : gnssQualifies cfg pl = false := Bool.eq_false_iff.mpr h0
      by_cases hwE : wifiExtractFails cfg pl = true
      · have hgeo : geolocation cfg env (updatedBuffer B0 pl) pl
            = (.ok ([], none), []) := by
          rw [geolocation_gnss_pass env (updatedBuffer B0 pl) h0' hgE']
          exact geolocationWifiStep_halt env (updatedBuffer B0 pl) hwE
        rw [handle_trace_none hg hu he1 hgeo] at hev
        simp at hev
      · have hwE' : wifiExtractFails cfg pl = false := Bool.eq_false_iff.mpr hwE
        by_cases h2 : wifiQualifies cfg pl = true
        · cases hR : env.wifiResp with
          | ok loc =>
            have hgeo : geolocation cfg env (updatedBuffer B0 pl) pl
                = (.ok ([], some loc),
                   [.callWifi pl.rxInfo (wifiAPList cfg pl)]) := by
              rw [geolocation_select_wifi env (updatedBuffer B0 pl) h0' hgE' h2]
              simp [wifiTDOAGeolocation, hR, Except.map]
            obtain ⟨hemit, hatt⟩ := handle_trace_some hg hu ha1 he1 hgeo
            rw [hemit] at hev
            have hev' : ev = mkLocationEvent pl [] loc := by simpa using hev
            subst hev'
            refine ⟨?_, ?_, fun _ => ⟨rfl, rfl⟩⟩
            · intro hT
              unfold hasTDOACall at hT
              rw [hatt] at hT
              simp [attemptedStrategies, strategyOfEffect] at hT
            · intro hT
              unfold hasRSSICall at hT
              rw [hatt] at hT
              simp [attemptedStrategies, strategyOfEffect] at hT
          | noLocation =>
            have hgeo : geolocation cfg env (updatedBuffer B0 pl) pl
                = (.ok ([], none),
                   [.callWifi pl.rxInfo (wifiAPList cfg pl)]) := by
              rw [geolocation_select_wifi env (updatedBuffer B0 pl) h0' hgE' h2]
              simp [wifiTDOAGeolocation, hR, Except.map]
            rw [handle_trace_none hg hu he1 hgeo] at hev
            simp at hev
          | err e =>
            have hgeo : geolocation cfg env (updatedBuffer B0 pl) pl
                = (.ok ([], some zeroLocation),
                   [.callWifi pl.rxInfo (wifiAPList cfg pl)]) := by
              rw [geolocation_select_wifi env (updatedBuffer B0 pl) h0' hgE' h2]
              simp [wifiTDOAGeolocation, hR, Except.map]
            obtain ⟨hemit, hatt⟩ := handle_trace_some hg hu ha1 he1 hgeo
            rw [hemit] at hev
            have hev' : ev = mkLocationEvent pl [] zeroLocation := by
              simpa using hev
            subst hev'
            refine ⟨?_, ?_, fun _ => ⟨rfl, rfl⟩⟩
            · intro hT
              unfold hasTDOACall at hT
              rw [hatt] at hT
              simp [attemptedStrategies, strategyOfEffect] at hT
            · intro hT
              unfold hasRSSICall at hT
              rw [hatt] at hT
              simp [attemptedStrategies, strategyOfEffect] at hT
        · have h2' : wifiQualifies cfg pl = false := Bool.eq_false_iff.mpr h2
          by_cases h4 : tdoaQualifies cfg (updatedBuffer B0 pl) = true
          · have hidsne : uplinkIDsOf
                (filterOnFineTimestamp (updatedBuffer B0 pl) 3) ≠ [] :=
              uplinkIDsOf_ne_nil (tdoaQualifies_ne h4)
                (fun _ hf => filterOnFineTimestamp_mem_length hf)
            cases hR : (if (filterOnFineTimestamp (updatedBuffer B0 pl) 3).length = 1
                then env.tdoaSingleResp else env.tdoaMultiResp) with
            | ok loc =>
              have hfst : (tdoaGeolocation env
                  (filterOnFineTimestamp (updatedBuffer B0 pl) 3)).1
                  = .ok (some loc) := by
                rw [tdoaGeolocation_fst, hR]
                rfl
              have hgeo : geolocation cfg env (updatedBuffer B0 pl) pl
                  = (.ok (uplinkIDsOf
                        (filterOnFineTimestamp (updatedBuffer B0 pl) 3),
                      some loc),
                     (tdoaGeolocation env
                        (filterOnFineTimestamp (updatedBuffer B0 pl) 3)).2) := by
                rw [geolocation_select_tdoa env (updatedBuffer B0 pl)
                  h0' hgE' h2' hwE' h4, hfst]
                rfl
              obtain ⟨hemit, hatt⟩ := handle_trace_some hg hu ha1 he1 hgeo
              rw [hemit] at hev
              have hev' : ev = mkLocationEvent pl
                  (uplinkIDsOf (filterOnFineTimestamp (updatedBuffer B0 pl) 3))
                  loc := by simpa using hev
              subst hev'
              refine ⟨fun _ => ⟨rfl, ?_⟩, ?_, ?_⟩
              · show (if (uplinkIDsOf
                    (filterOnFineTimestamp (updatedBuffer B0 pl) 3)).length = 0
                    then pl.fCnt else 0) = 0
                rw [if_neg (by simpa [List.length_eq_zero] using hidsne)]
              · intro hT
                unfold hasRSSICall at hT
                rw [hatt, attempted_tdoaGeolocation] at hT
                simp at hT
              · intro hGW
                rcases hGW with hG | hW
                · unfold hasGNSSCall at hG
                  rw [hatt, attempted_tdoaGeolocation] at hG
                  simp at hG
                · unfold hasWifiCall at hW
                  rw [hatt, attempted_tdoaGeolocation] at hW
                  simp at hW
            | noLocation =>
              have hfst : (tdoaGeolocation env
                  (filterOnFineTimestamp (updatedBuffer B0 pl) 3)).1
                  = .ok none := by
                rw [tdoaGeolocation_fst, hR]
                rfl
              have hgeo : geolocation cfg env (updatedBuffer B0 pl) pl
                  = (.ok (uplinkIDsOf
                        (filterOnFineTimestamp (updatedBuffer B0 pl) 3), none),
                     (tdoaGeolocation env
                        (filterOnFineTimestamp (updatedBuffer B0 pl) 3)).2) := by
                rw [geolocation_select_tdoa env (updatedBuffer B0 pl)
                  h0' hgE' h2' hwE' h4, hfst]
                rfl
              rw [handle_trace_none hg hu he1 hgeo] at hev
              simp at hev
            | err e =>
              have hfst : (tdoaGeolocation env
                  (filterOnFineTimestamp (updatedBuffer B0 pl) 3)).1
                  = .error ("geolocation error: " ++ e) := by
                rw [tdoaGeolocation_fst, hR]
                rfl
              have hgeo : geolocation cfg env (updatedBuffer B0 pl) pl
                  = (.error ("geolocation error: " ++ e),
                     (tdoaGeolocation env
                        (filterOnFineTimestamp (updatedBuffer B0 pl) 3)).2) := by
                rw [geolocation_select_tdoa env (updatedBuffer B0 pl)
                  h0' hgE' h2' hwE' h4, hfst]
                rfl
              rw [handle_trace_err hg hu he1 hgeo] at hev
              simp at hev
          · have h4' : tdoaQualifies cfg (updatedBuffer B0 pl) = false :=
              Bool.eq_false_iff.mpr h4
            by_cases h5 : rssiQualifies cfg (updatedBuffer B0 pl) = true
            · have hidsne : uplinkIDsOf (updatedBuffer B0 pl) ≠ [] :=
                uplinkIDsOf_ne_nil (rssiQualifies_ne h5) (updatedBuffer_inv hinv)
              cases hR : (if (updatedBuffer B0 pl).length = 1
                  then env.rssiSingleResp else env.rssiMultiResp) with
              | ok loc =>
                have hfst : (rssiGeolocation env (updatedBuffer B0 pl)).1
                    = .ok (some loc) := by
                  rw [rssiGeolocation_fst, hR]
                  rfl
                have hgeo : geolocation cfg env (updatedBuffer B0 pl) pl
                    = (.ok (uplinkIDsOf (updatedBuffer B0 pl), some loc),
                       (rssiGeolocation env (updatedBuffer B0 pl)).2) := by
                  rw [geolocation_select_rssi env (updatedBuffer B0 pl)
                    h0' hgE' h2' hwE' h4' h5, hfst]
                  rfl
                obtain ⟨hemit, hatt⟩ := handle_trace_some hg hu ha1 he1 hgeo
                rw [hemit] at hev
                have hev' : ev = mkLocationEvent pl
                    (uplinkIDsOf (updatedBuffer B0 pl)) loc := by simpa using hev
                subst hev'
                refine ⟨?_, fun _ => ⟨rfl, ?_⟩, ?_⟩
                · intro hT
                  unfold hasTDOACall at hT
                  rw [hatt, attempted_rssiGeolocation] at hT
                  simp at hT
                · show (if (uplinkIDsOf (updatedBuffer B0 pl)).length = 0
                      then pl.fCnt else 0) = 0
                  rw [if_neg (by simpa [List.length_eq_zero] using hidsne)]
                · intro hGW
                  rcases hGW with hG | hW
                  · unfold hasGNSSCall at hG
                    rw [hatt, attempted_rssiGeolocation] at hG
                    simp at hG
                  · unfold hasWifiCall at hW
                    rw [hatt, attempted_rssiGeolocation] at hW
                    simp at hW
              | noLocation =>
                have hfst : (rssiGeolocation env (updatedBuffer B0 pl)).1
                    = .ok none := by
                  rw [rssiGeolocation_fst, hR]
                  rfl
                have hgeo : geolocation cfg env (updatedBuffer B0 pl) pl
                    = (.ok (uplinkIDsOf (updatedBuffer B0 pl), none),
                       (rssiGeolocation env (updatedBuffer B0 pl)).2) := by
                  rw [geolocation_select_rssi env (updatedBuffer B0 pl)
                    h0' hgE' h2' hwE' h4' h5, hfst]
                  rfl
                rw [handle_trace_none hg hu he1 hgeo] at hev
                simp at hev
              | err e =>
                have hfst : (rssiGeolocation env (updatedBuffer B0 pl)).1
                    = .error ("geolocation error: " ++ e) := by
                  rw [rssiGeolocation_fst, hR]
                  rfl
                have hgeo : geolocation cfg env (updatedBuffer B0 pl) pl
                    = (.error ("geolocation error: " ++ e),
                       (rssiGeolocation env (updatedBuffer B0 pl)).2) := by
                  rw [geolocation_select_rssi env (updatedBuffer B0 pl)
                    h0' hgE' h2' hwE' h4' h5, hfst]
                  rfl
                rw [handle_trace_err hg hu he1 hgeo] at hev
                simp at hev
            · have h5' : rssiQualifies cfg (updatedBuffer B0 pl) = false :=
                Bool.eq_false_iff.mpr h5
              rw [handle_trace_none hg hu he1
                (geolocation_select_skip env (updatedBuffer B0 pl)
                  h0' hgE' h2' hwE' h4' h5')] at hev
              simp at hev

/-- C5 witness: TDOA fires on the current frame with three
fine-timestamped receptions, the resolver answers with a location, and
the emitted event carries `uplink_ids = [[1], [2], [3]]` and
`f_cnt = 0`. -/
theorem C5_uplink_id_propagation_witness :
    cfgTdoaRssi.geolocation = true ∧ envLoc.getResult = .ok [] ∧
    envLoc.saveOk = true ∧ (∀ f ∈ ([] : List Frame), 3 ≤ f.length) ∧
    (∀ ev ∈ emittedEvents (handleUplinkEvent cfgTdoaRssi envLoc plNoObject).2,
      (hasTDOACall (handleUplinkEvent cfgTdoaRssi envLoc plNoObject).2 = true →
        ev.uplinkIds
            = uplinkIDsOf (filterOnFineTimestamp (updatedBuffer [] plNoObject) 3) ∧
        ev.fCnt = 0) ∧
      (hasRSSICall (handleUplinkEvent cfgTdoaRssi envLoc plNoObject).2 = true →
        ev.uplinkIds = uplinkIDsOf (updatedBuffer [] plNoObject) ∧ ev.fCnt = 0) ∧
      ((hasGNSSCall (handleUplinkEvent cfgTdoaRssi envLoc plNoObject).2 = true ∨
          hasWifiCall (handleUplinkEvent cfgTdoaRssi envLoc plNoObject).2 = true) →
        ev.uplinkIds = [] ∧ ev.fCnt = plNoObject.fCnt)) :=
  ⟨rfl, rfl, rfl, by simp,
    C5_uplink_id_propagation rfl rfl rfl (by simp)⟩

/-- C2 witness: the amended claim at the counterexample's input. -/
theorem C2_extract_failure_amended_witness :
    cfgGnssRssi.geolocation = true ∧
    envBase.getResult = .ok [] ∧ envBase.saveOk = true ∧
    gnssExtractFails cfgGnssRssi plMalformed = true ∧
    ((handleUplinkEvent cfgGnssRssi envBase plMalformed).1 = .ok () ∧
      attemptedStrategies (handleUplinkEvent cfgGnssRssi envBase plMalformed).2 = [] ∧
      emittedEvents (handleUplinkEvent cfgGnssRssi envBase plMalformed).2 = []) :=
  ⟨rfl, rfl, rfl, rfl,
    C2_extract_failure_amended rfl rfl rfl (Or.inl rfl)⟩

end LoraCloud
